import Mathlib

/-!
Shallow embedding of the `volume.tier.move` shell command of SeaweedFS
(command_volume_tier_move.go) and proofs about it.

The command migrates replicated storage volumes from one disk tier to
another: it selects near-full, quiet volumes on the source tier, picks for
each a destination node ranked by free capacity on the target tier, and in
apply mode runs the migration protocol (mark read-only, live copy, adjust
the capacity counter, delete the now-stale replicas).

External collaborators (the gRPC transport, the glob matcher of the Go
standard library, the disk-type classifier, the master-client location
lookup) are modelled as oracle functions; effects on the cluster are
modelled as an explicit event trace, and the topology snapshot as explicit
state threaded through the functions.
-/

namespace TierMove

/-- One volume replica record of the topology snapshot
(the master_pb VolumeInformationMessage fields this command reads). -/
structure VolumeInfo where
  id : Nat
  size : Nat
  collection : String
  diskType : String
  modifiedAtSecond : Int
deriving DecidableEq

/-- One disk entry of a data node (master_pb DiskInfo): keyed by its disk
type, with the volume counters and the hosted volume records. -/
structure DiskInfo where
  diskType : String
  volumeCount : Int
  maxVolumeCount : Int
  volumeInfos : List VolumeInfo
deriving DecidableEq

/-- One data node of the snapshot (master_pb DataNodeInfo): node id plus its
disk map, rendered as a list keyed by the diskType field. -/
structure DataNodeInfo where
  id : String
  diskInfos : List DiskInfo
deriving DecidableEq

/-- Inputs of collectVolumeIdsForTierChange. The glob matcher
(filepath.Match of the Go standard library) and the disk-type classifier
(types.ToDiskType, an external collaborator) are passed as oracles; matchFn
returns none exactly when filepath.Match reports a malformed-pattern error.
quietSeconds is int64(quietPeriod / time.Second) and nowUnixSeconds is
time.Now().Unix(), both taken at the start of the call. -/
structure CollectParams where
  matchFn : String → String → Option Bool
  toDiskTypeFn : String → String
  volumeSizeLimitMb : Nat
  sourceTier : String
  collectionPattern : String
  fullPercentage : ℚ
  quietSeconds : Int
  nowUnixSeconds : Int

/-- Insertion into the vidMap set keyed by volume id (Go: vidMap of v.Id set
to true); the output order of the model is first-insertion order, standing
for the unspecified Go map iteration order. -/
def insertVid (m : List Nat) (vid : Nat) : List Nat :=
  if vid ∈ m then m else m ++ [vid]

/-- The quiet-period, tier and fullness checks guarding the vidMap insertion
(the two nested ifs of collectVolumeIdsForTierChange); the float64
arithmetic of the fullness comparison is modelled over ℚ. -/
def addIfQualifies (p : CollectParams) (m : List Nat) (v : VolumeInfo) : List Nat :=
  if v.modifiedAtSecond + p.quietSeconds < p.nowUnixSeconds ∧
      p.toDiskTypeFn v.diskType = p.sourceTier then
    if (v.size : ℚ) > p.fullPercentage / 100 * (p.volumeSizeLimitMb : ℚ) * 1024 * 1024 then
      insertVid m v.id
    else m
  else m

/-- Processing of one volume inside the eachDataNode callback: none models
the early return taken when filepath.Match reports an error, some the
continuation with the (possibly extended) vidMap. -/
def stepOnVolume (p : CollectParams) (m : List Nat) (v : VolumeInfo) : Option (List Nat) :=
  if p.collectionPattern ≠ "" then
    match p.matchFn p.collectionPattern v.collection with
    | none => none
    | some matched => if matched then some (addIfQualifies p m v) else some m
  else some (addIfQualifies p m v)

/-- The inner loop over one disk's VolumeInfos; the Bool is true when the
callback returned early on a match error, aborting the rest of this node. -/
def collectVolumeList (p : CollectParams) : List Nat → List VolumeInfo → List Nat × Bool
  | m, [] => (m, false)
  | m, v :: rest =>
    match stepOnVolume p m v with
    | none => (m, true)
    | some m1 => collectVolumeList p m1 rest

/-- The loop over one data node's DiskInfos; an early return from the
callback skips this node's remaining disks and volumes as well. -/
def collectDiskList (p : CollectParams) : List Nat → List DiskInfo → List Nat
  | m, [] => m
  | m, d :: rest =>
    match collectVolumeList p m d.volumeInfos with
    | (m1, true) => m1
    | (m1, false) => collectDiskList p m1 rest

/-- The eachDataNode traversal: each data node's callback runs on the vidMap
left by the previous nodes; an abort inside one node does not stop the
traversal of the following nodes. -/
def collectNodesList (p : CollectParams) : List Nat → List DataNodeInfo → List Nat
  | m, [] => m
  | m, dn :: rest => collectNodesList p (collectDiskList p m dn.diskInfos) rest

/-- collectVolumeIdsForTierChange: runs the eachDataNode traversal over the
snapshot's data nodes and returns the deduplicated volume ids; the err
result of the Go function is never assigned, hence always Except.ok. -/
def collectVolumeIdsForTierChange (p : CollectParams) (topologyInfo : List DataNodeInfo) :
    Except String (List Nat) :=
  Except.ok (collectNodesList p [] topologyInfo)

/-- The quiet-period, tier and fullness test of addIfQualifies as one
proposition, for stating lemmas about the selector. -/
def Qualifies (p : CollectParams) (v : VolumeInfo) : Prop :=
  v.modifiedAtSecond + p.quietSeconds < p.nowUnixSeconds ∧
  p.toDiskTypeFn v.diskType = p.sourceTier ∧
  (v.size : ℚ) > p.fullPercentage / 100 * (p.volumeSizeLimitMb : ℚ) * 1024 * 1024

instance (p : CollectParams) (v : VolumeInfo) : Decidable (Qualifies p v) := by
  unfold Qualifies; infer_instance

/-- The pattern admission of stepOnVolume: vacuous for the empty pattern, a
positive glob match otherwise. -/
def PatternOk (p : CollectParams) (v : VolumeInfo) : Prop :=
  p.collectionPattern ≠ "" → p.matchFn p.collectionPattern v.collection = some true

/-- Observable effects of a run: the mutating RPCs issued to volume servers
(markReadonly, liveMove, deleteVol), the spawn of a migration goroutine
(dispatch), the per-volume wg.Wait join (wgWait), and the messages printed
to the writer, rendered structurally with their format arguments. -/
inductive Event where
  | markReadonly (vid : Nat) (locs : List String)
  | liveMove (vid : Nat) (src dst : String)
  | deleteVol (vid : Nat) (loc : String)
  | dispatch (vid : Nat) (src dst : String)
  | wgWait
  | msgMoving (vid : Nat) (src dst : String)
  | msgMoveFailed (vid : Nat) (src dst : String)
  | msgDeleteFailed (vid : Nat) (loc : String)
  | msgNoTarget (vid : Nat)
  | msgTierMoveError (vid : Nat)
deriving DecidableEq

/-- Oracles for the external collaborators contacted per volume: the master
client location lookup and the outcomes of the three kinds of mutating RPC
(markVolumeReadonly, LiveMoveVolume, deleteVolume). -/
structure Env where
  getLocations : Nat → Option (List String)
  markVolumeReadonlyOk : Nat → List String → Bool
  liveMoveVolumeOk : Nat → String → String → Bool
  deleteVolumeOk : Nat → String → Bool

/-- The error cases of doMoveOneVolume (both formatted with fmt.Errorf in
the Go code). -/
inductive MoveErr where
  | markReadonlyFailed
  | liveMoveFailed
deriving DecidableEq

/-- Result of doMoveOneVolume: its error return, the updated topology
snapshot, the emitted events, and the set of servers on which the volume
exists afterwards (the replica locations). -/
structure MoveOutcome where
  err : Option MoveErr
  topo : List DataNodeInfo
  events : List Event
  replicas : List String
deriving DecidableEq

/-- Free volume slots of a node for the given disk type; modelled from the
spec: the DestinationRanker capacity query is maxVolumeCount minus
currentVolumeCount for that tier, 0 when the node has no such disk
(capacityByFreeVolumeCount lives outside this file's source excerpt). -/
def freeVolumeCount (toDiskType : String) (dn : DataNodeInfo) : Int :=
  match dn.diskInfos.find? (fun d => d.diskType == toDiskType) with
  | none => 0
  | some d => d.maxVolumeCount - d.volumeCount

/-- Modelled from the spec: keepDataNodesSorted orders the destination nodes
descending by free capacity for the target tier, ties broken arbitrarily. -/
def keepDataNodesSorted (l : List DataNodeInfo) (toDiskType : String) : List DataNodeInfo :=
  l.insertionSort (fun a b => freeVolumeCount toDiskType b ≤ freeVolumeCount toDiskType a)

/-- isOneOf: whether the server is among the volume's replica locations. -/
def isOneOf (server : String) (locations : List String) : Bool :=
  locations.any (fun loc => loc == server)

/-- The sourceVolumeServer selection loop of doVolumeTierMove: the last
replica location whose url differs from the destination id, or the empty
string when there is none. -/
def pickSource (locations : List String) (dstId : String) : String :=
  locations.foldl (fun acc loc => if loc ≠ dstId then loc else acc) ""

/-- The condition under which the walk over the sorted nodes acts on a
destination: free slots on the target tier, not already hosting a replica,
and a non-empty source server; nodes failing it are skipped (continue). -/
def viableTarget (toDiskType : String) (locations : List String) (dn : DataNodeInfo) : Bool :=
  freeVolumeCount toDiskType dn > 0 && !isOneOf dn.id locations &&
    pickSource locations dn.id ≠ ""

/-- The VolumeCount increment on a disk entry when its key matches the
target disk type. -/
def bumpDisk (dt : String) (d : DiskInfo) : DiskInfo :=
  if d.diskType == dt then { d with volumeCount := d.volumeCount + 1 } else d

/-- The VolumeCount increment on a node when it is the destination. -/
def bumpNode (nid dt : String) (dn : DataNodeInfo) : DataNodeInfo :=
  if dn.id == nid then { dn with diskInfos := dn.diskInfos.map (bumpDisk dt) } else dn

/-- The VolumeCount increment on the destination node's DiskInfos entry for
the target disk type (Go: increment through the dst.dataNode pointer; the
disk map has unique keys, modelled as the keyed list update). -/
def incVolumeCount (topo : List DataNodeInfo) (nid : String) (dt : String) : List DataNodeInfo :=
  topo.map (bumpNode nid dt)

/-- The cleanup loop of doMoveOneVolume over the original location list:
issue a delete RPC for every location that is neither the destination nor
the retained source; a failed delete is logged to the writer and the loop
continues. Returns the emitted events and the replica set left behind (a
successful delete removes that location, a failed one leaves it). -/
def deleteRemaining (env : Env) (vid : Nat) (dstId srcId : String) :
    List String → List String → List Event × List String
  | [], reps => ([], reps)
  | loc :: rest, reps =>
    if loc ≠ dstId ∧ loc ≠ srcId then
      if env.deleteVolumeOk vid loc then
        let r := deleteRemaining env vid dstId srcId rest (reps.erase loc)
        (Event.deleteVol vid loc :: r.1, r.2)
      else
        let r := deleteRemaining env vid dstId srcId rest reps
        (Event.deleteVol vid loc :: Event.msgDeleteFailed vid loc :: r.1, r.2)
    else deleteRemaining env vid dstId srcId rest reps

/-- doMoveOneVolume: mark all replicas read-only, run the live copy, bump
the destination's capacity counter, then delete the stale replicas.
Modelled from the spec for the external LiveMoveVolume collaborator: on
success the volume exists, read-only, at both the copy source and the
destination (the transfer internals live outside this excerpt), so the
replica set after a successful copy is the original locations plus the
destination. -/
def doMoveOneVolume (env : Env) (vid : Nat) (toDiskType : String) (locations : List String)
    (sourceVolumeServer : String) (dstId : String) (topo : List DataNodeInfo) : MoveOutcome :=
  if env.markVolumeReadonlyOk vid locations then
    if env.liveMoveVolumeOk vid sourceVolumeServer dstId then
      let r := deleteRemaining env vid dstId sourceVolumeServer locations (locations ++ [dstId])
      { err := none
        topo := incVolumeCount topo dstId toDiskType
        events := Event.markReadonly vid locations ::
          Event.liveMove vid sourceVolumeServer dstId :: r.1
        replicas := r.2 }
    else
      { err := some MoveErr.liveMoveFailed, topo := topo
        events := [Event.markReadonly vid locations,
          Event.liveMove vid sourceVolumeServer dstId]
        replicas := locations }
  else
    { err := some MoveErr.markReadonlyFailed, topo := topo
      events := [Event.markReadonly vid locations], replicas := locations }

/-- The error return of doVolumeTierMove: only the failed location lookup
is returned; everything later is reported on the writer instead. -/
inductive TierErr where
  | volumeNotFound
deriving DecidableEq

/-- Result of doVolumeTierMove: error return, updated node list (the Go
slice is sorted in place and the pointed-to nodes mutated), events. -/
structure TierMoveOutcome where
  err : Option TierErr
  topo : List DataNodeInfo
  events : List Event
deriving DecidableEq

/-- doVolumeTierMove: look up the replica locations, sort the destination
nodes by free capacity, walk them for the first viable destination; in dry
run only bump the simulated counter, in apply mode spawn the migration
goroutine and join it with wg.Wait before returning. The activeServers
gate acquire and release around the spawn are not modelled: the goroutine
is joined before the function returns, so within one run the gate is always
free when acquired and its effect is unobservable in the trace. The
wg.Wait call always runs; the no-target message is printed after it. -/
def doVolumeTierMove (env : Env) (vid : Nat) (toDiskType : String)
    (allLocations : List DataNodeInfo) (applyChanges : Bool) : TierMoveOutcome :=
  match env.getLocations vid with
  | none => { err := some TierErr.volumeNotFound, topo := allLocations, events := [] }
  | some locations =>
    let sorted := keepDataNodesSorted allLocations toDiskType
    match sorted.find? (viableTarget toDiskType locations) with
    | none =>
      { err := none, topo := sorted, events := [Event.wgWait, Event.msgNoTarget vid] }
    | some dst =>
      let src := pickSource locations dst.id
      if applyChanges then
        let mo := doMoveOneVolume env vid toDiskType locations src dst.id sorted
        { err := none
          topo := mo.topo
          events := Event.msgMoving vid src dst.id :: Event.dispatch vid src dst.id ::
            mo.events ++
            (match mo.err with
              | some _ => [Event.msgMoveFailed vid src dst.id]
              | none => []) ++ [Event.wgWait] }
      else
        { err := none
          topo := incVolumeCount sorted dst.id toDiskType
          events := [Event.msgMoving vid src dst.id, Event.wgWait] }

/-- The per-candidate loop of Do: run doVolumeTierMove for each collected
volume id in turn, printing a tier-move-error line when it returns an
error and continuing with the remaining candidates either way. -/
def tierMoveLoop (env : Env) (toDiskType : String) (applyChanges : Bool) :
    List Nat → List DataNodeInfo → List DataNodeInfo × List Event
  | [], topo => (topo, [])
  | vid :: rest, topo =>
    let out := doVolumeTierMove env vid toDiskType topo applyChanges
    let errEv : List Event :=
      match out.err with
      | some _ => [Event.msgTierMoveError vid]
      | none => []
    let r := tierMoveLoop env toDiskType applyChanges rest out.topo
    (r.1, out.events ++ errEv ++ r.2)

/-- The flag values of the command after parsing: collectionPattern,
fullPercent, quietFor (held as int64 seconds, the form the selector uses),
fromDiskType, toDiskType and force. -/
structure Flags where
  collectionPattern : String
  fullPercentage : ℚ
  quietSeconds : Int
  source : String
  target : String
  applyChange : Bool
deriving DecidableEq

/-- The fatal error returns of Do: the cluster lock check, the identical
tier check, the topology fetch, and the (never taken) selector error. -/
inductive DoErr where
  | notLocked
  | sameTier (tier : String)
  | topoFetchFailed
  | collectFailed
deriving DecidableEq

/-- Inputs of one Do run: the per-volume oracles, the cluster lock check
result, the flag parse result (none models a flag.Parse error), the
topology fetch result (topology plus volumeSizeLimitMb), the glob and
disk-type oracles, and the clock. -/
structure DoEnv where
  env : Env
  lockOk : Bool
  parsed : Option Flags
  topo : Option (List DataNodeInfo × Nat)
  matchFn : String → String → Option Bool
  toDiskTypeFn : String → String
  nowUnixSeconds : Int

/-- Do: the command entry point. Checks the cluster lock, parses the flags
(a parse error returns nil, aborting the run with no error surfaced),
rejects identical source and target tiers, fetches the topology, collects
the candidate volume ids and runs the per-volume loop; per-volume errors
are printed and never returned. Modelled from the spec for
collectVolumeReplicaLocations (outside this excerpt): the destination
location list it yields is the snapshot's data node list. -/
def Do (denv : DoEnv) : Option DoErr × List Event :=
  if denv.lockOk then
    match denv.parsed with
    | none => (none, [])
    | some flags =>
      let fromDiskType := denv.toDiskTypeFn flags.source
      let toDiskType := denv.toDiskTypeFn flags.target
      if fromDiskType = toDiskType then (some (DoErr.sameTier fromDiskType), [])
      else
        match denv.topo with
        | none => (some DoErr.topoFetchFailed, [])
        | some (topologyInfo, volumeSizeLimitMb) =>
          match collectVolumeIdsForTierChange
              { matchFn := denv.matchFn, toDiskTypeFn := denv.toDiskTypeFn
                volumeSizeLimitMb := volumeSizeLimitMb, sourceTier := fromDiskType
                collectionPattern := flags.collectionPattern
                fullPercentage := flags.fullPercentage
                quietSeconds := flags.quietSeconds
                nowUnixSeconds := denv.nowUnixSeconds } topologyInfo with
          | Except.error _ => (some DoErr.collectFailed, [])
          | Except.ok volumeIds =>
            (none, (tierMoveLoop denv.env toDiskType flags.applyChange
              volumeIds topologyInfo).2)
  else (some DoErr.notLocked, [])

/-- Lookup of a data node by id in the snapshot. -/
def findNode (topo : List DataNodeInfo) (nid : String) : Option DataNodeInfo :=
  topo.find? (fun dn => dn.id == nid)

/-- Lookup of the disk entry of a node for a given disk type. -/
def findDisk (topo : List DataNodeInfo) (nid dt : String) : Option DiskInfo :=
  (findNode topo nid).bind (fun dn => dn.diskInfos.find? (fun d => d.diskType == dt))

/-- Whether an event is one of the mutating RPCs (readonly-mark, copy,
delete). -/
def Event.isMutatingRpc : Event → Bool
  | Event.markReadonly _ _ => true
  | Event.liveMove _ _ _ => true
  | Event.deleteVol _ _ => true
  | _ => false

/-- Whether an event is the spawn of a migration task. -/
def Event.isDispatch : Event → Bool
  | Event.dispatch _ _ _ => true
  | _ => false

/-- Whether an event is a wg.Wait join. -/
def Event.isJoin : Event → Bool
  | Event.wgWait => true
  | _ => false

/-- The dispatch discipline asserted by the spec for apply mode: every task
dispatch of the trace happens before the coordinator first waits; once a
wg.Wait occurs, no further dispatch follows. -/
def dispatchesAllPrecedeWaits : List Event → Bool
  | [] => true
  | e :: rest =>
    if e.isJoin then rest.all (fun x => !x.isDispatch)
    else dispatchesAllPrecedeWaits rest

/-- Fold over a trace counting outstanding dispatched tasks: a dispatch
increments the count but is refused (none) when another task is already
outstanding, and a wg.Wait joins everything dispatched so far. -/
def scanOutstanding : List Event → Nat → Option Nat
  | [], n => some n
  | e :: rest, n =>
    if e.isDispatch then
      if n = 0 then scanOutstanding rest 1 else none
    else if e.isJoin then scanOutstanding rest 0
    else scanOutstanding rest n

/-! ### Concrete instances used by witnesses and counterexamples -/

/-- A selector parameter set for the spec's scenario: tier hdd to ssd, a
30000 MB volume size limit, fullPercent 95, quietFor one hour, no
collection pattern; the clock reads 1000000. -/
def scenarioParams : CollectParams :=
  { matchFn := fun _ _ => some true, toDiskTypeFn := fun s => s
    volumeSizeLimitMb := 30000, sourceTier := "hdd", collectionPattern := ""
    fullPercentage := 95, quietSeconds := 3600, nowUnixSeconds := 1000000 }

/-- A volume at 96 percent of the 30000 MB limit, last written two days
ago. -/
def scenarioVol96 : VolumeInfo :=
  { id := 42, size := 30198988800, collection := "c", diskType := "hdd"
    modifiedAtSecond := 1000000 - 172800 }

/-- The same volume at 80 percent of the limit. -/
def scenarioVol80 : VolumeInfo :=
  { id := 43, size := 25165824000, collection := "c", diskType := "hdd"
    modifiedAtSecond := 1000000 - 172800 }

/-- The same volume written ten minutes ago. -/
def scenarioVolRecent : VolumeInfo :=
  { id := 44, size := 30198988800, collection := "c", diskType := "hdd"
    modifiedAtSecond := 1000000 - 600 }

/-- A volume whose quiet time is exactly the quiet period of one hour. -/
def scenarioVolExact : VolumeInfo :=
  { id := 45, size := 30198988800, collection := "c", diskType := "hdd"
    modifiedAtSecond := 1000000 - 3600 }

/-- The hdd disk carrying the four scenario volumes. -/
def scenarioDisk : DiskInfo :=
  { diskType := "hdd", volumeCount := 4, maxVolumeCount := 4
    volumeInfos := [scenarioVol96, scenarioVol80, scenarioVolRecent, scenarioVolExact] }

/-- A one-node topology hosting the four scenario volumes on hdd. -/
def scenarioTopo : List DataNodeInfo :=
  [{ id := "A", diskInfos := [scenarioDisk] }]

/-- The hdd disk carrying only the boundary volume. -/
def scenarioDiskExact : DiskInfo :=
  { diskType := "hdd", volumeCount := 1, maxVolumeCount := 1
    volumeInfos := [scenarioVolExact] }

/-- A topology with only the boundary volume whose quiet time equals the
quiet period exactly. -/
def scenarioTopoExact : List DataNodeInfo :=
  [{ id := "A", diskInfos := [scenarioDiskExact] }]

/-- Parameters with a non-empty collection pattern and a matcher oracle
that reports a malformed-pattern error exactly on the collection name bad;
the zero size limit and zero fullness threshold make every non-empty volume
pass the fullness test. -/
def c10Params : CollectParams :=
  { matchFn := fun _ c => if c = "bad" then none else some true
    toDiskTypeFn := fun s => s, volumeSizeLimitMb := 0, sourceTier := "hdd"
    collectionPattern := "x*", fullPercentage := 0, quietSeconds := 0
    nowUnixSeconds := 10 }

/-- A qualifying volume visited before the match error. -/
def c10v1 : VolumeInfo :=
  { id := 1, size := 1, collection := "a", diskType := "hdd", modifiedAtSecond := 0 }

/-- The volume whose collection name makes the matcher report an error. -/
def c10vbad : VolumeInfo :=
  { id := 2, size := 1, collection := "bad", diskType := "hdd", modifiedAtSecond := 0 }

/-- A qualifying volume on a later disk of the same node. -/
def c10v2 : VolumeInfo :=
  { id := 3, size := 1, collection := "a", diskType := "hdd", modifiedAtSecond := 0 }

/-- A qualifying volume on another data node. -/
def c10v3 : VolumeInfo :=
  { id := 4, size := 1, collection := "a", diskType := "hdd", modifiedAtSecond := 0 }

/-- First disk of the first node: the good volume, then the error one. -/
def c10d1 : DiskInfo :=
  { diskType := "hdd", volumeCount := 2, maxVolumeCount := 2, volumeInfos := [c10v1, c10vbad] }

/-- Second disk of the first node, visited after the error if at all. -/
def c10d2 : DiskInfo :=
  { diskType := "hdd", volumeCount := 1, maxVolumeCount := 1, volumeInfos := [c10v2] }

/-- The single disk of the second node. -/
def c10d3 : DiskInfo :=
  { diskType := "hdd", volumeCount := 1, maxVolumeCount := 1, volumeInfos := [c10v3] }

/-- The data node on which the match error occurs. -/
def c10n1 : DataNodeInfo := { id := "N1", diskInfos := [c10d1, c10d2] }

/-- The data node visited after the one with the match error. -/
def c10n2 : DataNodeInfo := { id := "N2", diskInfos := [c10d3] }

/-- A per-volume oracle set where every replica set is at node A and every
RPC succeeds. -/
def allOkEnv : Env :=
  { getLocations := fun _ => some ["A"]
    markVolumeReadonlyOk := fun _ _ => true
    liveMoveVolumeOk := fun _ _ _ => true
    deleteVolumeOk := fun _ _ => true }

/-- An oracle set for a three-replica volume at servers a, b and c with
every RPC succeeding. -/
def threeRepEnv : Env :=
  { getLocations := fun _ => some ["a", "b", "c"]
    markVolumeReadonlyOk := fun _ _ => true
    liveMoveVolumeOk := fun _ _ _ => true
    deleteVolumeOk := fun _ _ => true }

/-- Like threeRepEnv but the delete RPC fails on server a. -/
def threeRepFailAEnv : Env :=
  { getLocations := fun _ => some ["a", "b", "c"]
    markVolumeReadonlyOk := fun _ _ => true
    liveMoveVolumeOk := fun _ _ _ => true
    deleteVolumeOk := fun _ loc => loc != "a" }

/-- Like allOkEnv but the readonly-mark RPC fails. -/
def markFailEnv : Env :=
  { getLocations := fun _ => some ["A"]
    markVolumeReadonlyOk := fun _ _ => false
    liveMoveVolumeOk := fun _ _ _ => true
    deleteVolumeOk := fun _ _ => true }

/-- The node hosting the replica, with no ssd capacity. -/
def nodeA : DataNodeInfo := { id := "A", diskInfos := [] }

/-- A free ssd disk with five spare slots. -/
def ssdDiskB : DiskInfo :=
  { diskType := "ssd", volumeCount := 0, maxVolumeCount := 5, volumeInfos := [] }

/-- A destination node with five free ssd slots. -/
def nodeB : DataNodeInfo := { id := "B", diskInfos := [ssdDiskB] }

/-- A roomier ssd disk with ten spare slots. -/
def ssdDiskC : DiskInfo :=
  { diskType := "ssd", volumeCount := 0, maxVolumeCount := 10, volumeInfos := [] }

/-- A node with the most free ssd slots, used as a replica holder that must
be skipped despite its capacity. -/
def nodeC : DataNodeInfo := { id := "C", diskInfos := [ssdDiskC] }

/-- An oracle set whose volume has replicas at C and A, so that the
highest-capacity node C must be skipped as destination. -/
def replicaAtCEnv : Env :=
  { getLocations := fun _ => some ["C", "A"]
    markVolumeReadonlyOk := fun _ _ => true
    liveMoveVolumeOk := fun _ _ _ => true
    deleteVolumeOk := fun _ _ => true }

/-- An oracle set whose volume has replicas on every node of the cluster,
so that no destination is viable. -/
def allRepEnv : Env :=
  { getLocations := fun _ => some ["A", "B", "C"]
    markVolumeReadonlyOk := fun _ _ => true
    liveMoveVolumeOk := fun _ _ _ => true
    deleteVolumeOk := fun _ _ => true }

/-- An oracle set that finds no locations for any volume. -/
def lostEnv : Env :=
  { getLocations := fun _ => none
    markVolumeReadonlyOk := fun _ _ => true
    liveMoveVolumeOk := fun _ _ _ => true
    deleteVolumeOk := fun _ _ => true }

/-- Flags for an hdd to ssd run with the default knobs. -/
def hddToSsdFlags : Flags :=
  { collectionPattern := "", fullPercentage := 95, quietSeconds := 86400
    source := "hdd", target := "ssd", applyChange := false }

/-- Flags whose source and target tier coincide. -/
def sameTierFlags : Flags :=
  { collectionPattern := "", fullPercentage := 95, quietSeconds := 86400
    source := "hdd", target := "hdd", applyChange := false }

/-- A Do environment whose cluster lock check fails. -/
def doEnvNoLock : DoEnv :=
  { env := allOkEnv, lockOk := false, parsed := some hddToSsdFlags
    topo := some ([], 30000), matchFn := fun _ _ => some true
    toDiskTypeFn := fun s => s, nowUnixSeconds := 0 }

/-- A Do environment whose flag parsing fails. -/
def doEnvParseErr : DoEnv :=
  { env := allOkEnv, lockOk := true, parsed := none
    topo := some ([], 30000), matchFn := fun _ _ => some true
    toDiskTypeFn := fun s => s, nowUnixSeconds := 0 }

/-- A Do environment with identical source and target tiers. -/
def doEnvSameTier : DoEnv :=
  { env := allOkEnv, lockOk := true, parsed := some sameTierFlags
    topo := some ([], 30000), matchFn := fun _ _ => some true
    toDiskTypeFn := fun s => s, nowUnixSeconds := 0 }

/-- A Do environment whose topology fetch fails. -/
def doEnvNoTopo : DoEnv :=
  { env := allOkEnv, lockOk := true, parsed := some hddToSsdFlags
    topo := none, matchFn := fun _ _ => some true
    toDiskTypeFn := fun s => s, nowUnixSeconds := 0 }

/-- A Do environment whose setup phase fully succeeds. -/
def doEnvOk : DoEnv :=
  { env := allOkEnv, lockOk := true, parsed := some hddToSsdFlags
    topo := some ([], 30000), matchFn := fun _ _ => some true
    toDiskTypeFn := fun s => s, nowUnixSeconds := 0 }

/-! ### Lemmas about the candidate selector -/

theorem mem_insertVid {m : List Nat} {vid a : Nat} :
    a ∈ insertVid m vid ↔ a ∈ m ∨ a = vid := by
  unfold insertVid
  split
  · next hin =>
    constructor
    · exact Or.inl
    · rintro (h | rfl)
      · exact h
      · exact hin
  · simp

theorem insertVid_nodup {m : List Nat} {vid : Nat} (h : m.Nodup) :
    (insertVid m vid).Nodup := by
  unfold insertVid
  split
  · exact h
  · next hin => simp [List.nodup_append, h, hin]

theorem insertVid_sub {m : List Nat} {vid : Nat} : m ⊆ insertVid m vid :=
  fun _ ha => mem_insertVid.mpr (Or.inl ha)

theorem self_mem_insertVid {m : List Nat} {vid : Nat} : vid ∈ insertVid m vid :=
  mem_insertVid.mpr (Or.inr rfl)

theorem addIfQualifies_eq (p : CollectParams) (m : List Nat) (v : VolumeInfo) :
    addIfQualifies p m v = if Qualifies p v then insertVid m v.id else m := by
  unfold addIfQualifies Qualifies
  split
  · next h1 =>
    split
    · next h2 => rw [if_pos ⟨h1.1, h1.2, h2⟩]
    · next h2 => rw [if_neg (fun hq => h2 hq.2.2)]
  · next h1 => rw [if_neg (fun hq => h1 ⟨hq.1, hq.2.1⟩)]

theorem stepOnVolume_cases {p : CollectParams} {m : List Nat} {v : VolumeInfo}
    {m1 : List Nat} (h : stepOnVolume p m v = some m1) :
    m1 = m ∨ (m1 = insertVid m v.id ∧ Qualifies p v ∧ PatternOk p v) := by
  unfold stepOnVolume at h
  split at h
  · next hne =>
    split at h
    · cases h
    · next matched hmv =>
      split at h
      · next hmt =>
        injection h with h
        rw [addIfQualifies_eq] at h
        split at h
        · next hq =>
          refine Or.inr ⟨h.symm, hq, fun _ => ?_⟩
          rw [hmt] at hmv
          exact hmv
        · exact Or.inl h.symm
      · injection h with h
        exact Or.inl h.symm
  · next hne =>
    injection h with h
    rw [addIfQualifies_eq] at h
    split at h
    · next hq => exact Or.inr ⟨h.symm, hq, fun hc => absurd hc hne⟩
    · exact Or.inl h.symm

theorem stepOnVolume_hit {p : CollectParams} {m : List Nat} {v : VolumeInfo}
    (hq : Qualifies p v) (hp : PatternOk p v) :
    stepOnVolume p m v = some (insertVid m v.id) := by
  unfold stepOnVolume
  split
  · next hne => rw [hp hne]; simp [addIfQualifies_eq, hq]
  · simp [addIfQualifies_eq, hq]

theorem stepOnVolume_ne_none {p : CollectParams} {m : List Nat} {v : VolumeInfo}
    (hm : p.collectionPattern ≠ "" → p.matchFn p.collectionPattern v.collection ≠ none) :
    stepOnVolume p m v ≠ none := by
  unfold stepOnVolume
  split
  · next hne =>
    split
    · next hmv => exact absurd hmv (hm hne)
    · split <;> simp
  · simp

theorem collectVolumeList_sound (p : CollectParams) :
    ∀ (vs : List VolumeInfo) (m : List Nat) (a : Nat),
      a ∈ (collectVolumeList p m vs).1 →
      a ∈ m ∨ ∃ v ∈ vs, a = v.id ∧ Qualifies p v ∧ PatternOk p v := by
  intro vs
  induction vs with
  | nil => intro m a ha; exact Or.inl ha
  | cons v rest ih =>
    intro m a ha
    unfold collectVolumeList at ha
    split at ha
    · next heq => exact Or.inl ha
    · next m1 heq =>
      rcases ih m1 a ha with h | ⟨w, hw, hrest⟩
      · rcases stepOnVolume_cases heq with rfl | ⟨rfl, hq, hp⟩
        · exact Or.inl h
        · rcases mem_insertVid.mp h with h | rfl
          · exact Or.inl h
          · exact Or.inr ⟨v, List.mem_cons_self v rest, rfl, hq, hp⟩
      · exact Or.inr ⟨w, List.mem_cons_of_mem v hw, hrest⟩

theorem collectVolumeList_nodup (p : CollectParams) :
    ∀ (vs : List VolumeInfo) (m : List Nat), m.Nodup →
      ((collectVolumeList p m vs).1).Nodup := by
  intro vs
  induction vs with
  | nil => intro m hm; exact hm
  | cons v rest ih =>
    intro m hm
    unfold collectVolumeList
    split
    · exact hm
    · next m1 heq =>
      apply ih
      rcases stepOnVolume_cases heq with rfl | ⟨rfl, _, _⟩
      · exact hm
      · exact insertVid_nodup hm

theorem collectVolumeList_mono (p : CollectParams) :
    ∀ (vs : List VolumeInfo) (m : List Nat), m ⊆ (collectVolumeList p m vs).1 := by
  intro vs
  induction vs with
  | nil => intro m; exact List.Subset.refl _
  | cons v rest ih =>
    intro m
    unfold collectVolumeList
    split
    · exact List.Subset.refl _
    · next m1 heq =>
      refine List.Subset.trans ?_ (ih m1)
      rcases stepOnVolume_cases heq with rfl | ⟨rfl, _, _⟩
      · exact List.Subset.refl _
      · exact insertVid_sub

theorem collectVolumeList_hit (p : CollectParams) :
    ∀ (vs : List VolumeInfo) (m : List Nat) (v : VolumeInfo),
      (∀ w ∈ vs, p.collectionPattern ≠ "" →
        p.matchFn p.collectionPattern w.collection ≠ none) →
      v ∈ vs → Qualifies p v → PatternOk p v →
      v.id ∈ (collectVolumeList p m vs).1 := by
  intro vs
  induction vs with
  | nil => intro m v _ hv; cases hv
  | cons w rest ih =>
    intro m v hne hv hq hp
    unfold collectVolumeList
    rcases List.mem_cons.mp hv with rfl | hv
    · rw [stepOnVolume_hit hq hp]
      exact collectVolumeList_mono p rest _ self_mem_insertVid
    · cases hs : stepOnVolume p m w with
      | none => exact absurd hs (stepOnVolume_ne_none (hne w (List.mem_cons_self w rest)))
      | some m1 =>
        exact ih m1 v (fun x hx => hne x (List.mem_cons_of_mem w hx)) hv hq hp

theorem collectVolumeList_no_abort (p : CollectParams) :
    ∀ (vs : List VolumeInfo) (m : List Nat),
      (∀ w ∈ vs, p.collectionPattern ≠ "" →
        p.matchFn p.collectionPattern w.collection ≠ none) →
      (collectVolumeList p m vs).2 = false := by
  intro vs
  induction vs with
  | nil => intro m _; rfl
  | cons w ws ih =>
    intro m hne
    unfold collectVolumeList
    cases hs : stepOnVolume p m w with
    | none => exact absurd hs (stepOnVolume_ne_none (hne w (List.mem_cons_self w ws)))
    | some m1 => exact ih m1 (fun x hx => hne x (List.mem_cons_of_mem w hx))

theorem collectDiskList_sound (p : CollectParams) :
    ∀ (ds : List DiskInfo) (m : List Nat) (a : Nat),
      a ∈ collectDiskList p m ds →
      a ∈ m ∨ ∃ d ∈ ds, ∃ v ∈ d.volumeInfos, a = v.id ∧ Qualifies p v ∧ PatternOk p v := by
  intro ds
  induction ds with
  | nil => intro m a ha; exact Or.inl ha
  | cons d rest ih =>
    intro m a ha
    unfold collectDiskList at ha
    split at ha
    · next m1 heq =>
      have hm1 : a ∈ (collectVolumeList p m d.volumeInfos).1 := by rw [heq]; exact ha
      rcases collectVolumeList_sound p d.volumeInfos m a hm1 with h | ⟨v, hv, hrest⟩
      · exact Or.inl h
      · exact Or.inr ⟨d, List.mem_cons_self d rest, v, hv, hrest⟩
    · next m1 heq =>
      rcases ih m1 a ha with h | ⟨d2, hd2, hrest⟩
      · have hm1 : a ∈ (collectVolumeList p m d.volumeInfos).1 := by rw [heq]; exact h
        rcases collectVolumeList_sound p d.volumeInfos m a hm1 with h2 | ⟨v, hv, hrest2⟩
        · exact Or.inl h2
        · exact Or.inr ⟨d, List.mem_cons_self d rest, v, hv, hrest2⟩
      · exact Or.inr ⟨d2, List.mem_cons_of_mem d hd2, hrest⟩

theorem collectDiskList_nodup (p : CollectParams) :
    ∀ (ds : List DiskInfo) (m : List Nat), m.Nodup → (collectDiskList p m ds).Nodup := by
  intro ds
  induction ds with
  | nil => intro m hm; exact hm
  | cons d rest ih =>
    intro m hm
    unfold collectDiskList
    split
    · next m1 heq =>
      have : ((collectVolumeList p m d.volumeInfos).1).Nodup :=
        collectVolumeList_nodup p d.volumeInfos m hm
      rw [heq] at this; exact this
    · next m1 heq =>
      apply ih
      have : ((collectVolumeList p m d.volumeInfos).1).Nodup :=
        collectVolumeList_nodup p d.volumeInfos m hm
      rw [heq] at this; exact this

theorem collectDiskList_mono (p : CollectParams) :
    ∀ (ds : List DiskInfo) (m : List Nat), m ⊆ collectDiskList p m ds := by
  intro ds
  induction ds with
  | nil => intro m; exact List.Subset.refl _
  | cons d rest ih =>
    intro m
    unfold collectDiskList
    split
    · next m1 heq =>
      have := collectVolumeList_mono p d.volumeInfos m
      rw [heq] at this; exact this
    · next m1 heq =>
      refine List.Subset.trans ?_ (ih m1)
      have := collectVolumeList_mono p d.volumeInfos m
      rw [heq] at this; exact this

theorem collectDiskList_hit (p : CollectParams) :
    ∀ (ds : List DiskInfo) (m : List Nat) (d : DiskInfo) (v : VolumeInfo),
      (∀ d2 ∈ ds, ∀ w ∈ d2.volumeInfos, p.collectionPattern ≠ "" →
        p.matchFn p.collectionPattern w.collection ≠ none) →
      d ∈ ds → v ∈ d.volumeInfos → Qualifies p v → PatternOk p v →
      v.id ∈ collectDiskList p m ds := by
  intro ds
  induction ds with
  | nil => intro m d v _ hd; cases hd
  | cons d0 rest ih =>
    intro m d v hne hd hv hq hp
    unfold collectDiskList
    rcases List.mem_cons.mp hd with rfl | hd
    · split
      · next m1 heq =>
        have : v.id ∈ (collectVolumeList p m d.volumeInfos).1 :=
          collectVolumeList_hit p d.volumeInfos m v
            (fun w hw => hne d (List.mem_cons_self d rest) w hw) hv hq hp
        rw [heq] at this; exact this
      · next m1 heq =>
        have : v.id ∈ (collectVolumeList p m d.volumeInfos).1 :=
          collectVolumeList_hit p d.volumeInfos m v
            (fun w hw => hne d (List.mem_cons_self d rest) w hw) hv hq hp
        rw [heq] at this
        exact collectDiskList_mono p rest m1 this
    · split
      · next m1 heq =>
        exfalso
        have hfalse : (collectVolumeList p m d0.volumeInfos).2 = false :=
          collectVolumeList_no_abort p d0.volumeInfos m
            (fun w hw => hne d0 (List.mem_cons_self d0 rest) w hw)
        rw [heq] at hfalse
        cases hfalse
      · next m1 heq =>
        exact ih m1 d v (fun d2 hd2 => hne d2 (List.mem_cons_of_mem d0 hd2)) hd hv hq hp

theorem collectNodesList_sound (p : CollectParams) :
    ∀ (ns : List DataNodeInfo) (m : List Nat) (a : Nat),
      a ∈ collectNodesList p m ns →
      a ∈ m ∨ ∃ dn ∈ ns, ∃ d ∈ dn.diskInfos, ∃ v ∈ d.volumeInfos,
        a = v.id ∧ Qualifies p v ∧ PatternOk p v := by
  intro ns
  induction ns with
  | nil => intro m a ha; exact Or.inl ha
  | cons dn rest ih =>
    intro m a ha
    unfold collectNodesList at ha
    rcases ih _ a ha with h | ⟨dn2, hdn2, hrest⟩
    · rcases collectDiskList_sound p dn.diskInfos m a h with h2 | ⟨d, hd, hrest2⟩
      · exact Or.inl h2
      · exact Or.inr ⟨dn, List.mem_cons_self dn rest, d, hd, hrest2⟩
    · exact Or.inr ⟨dn2, List.mem_cons_of_mem dn hdn2, hrest⟩

theorem collectNodesList_nodup (p : CollectParams) :
    ∀ (ns : List DataNodeInfo) (m : List Nat), m.Nodup → (collectNodesList p m ns).Nodup := by
  intro ns
  induction ns with
  | nil => intro m hm; exact hm
  | cons dn rest ih =>
    intro m hm
    unfold collectNodesList
    exact ih _ (collectDiskList_nodup p dn.diskInfos m hm)

theorem collectNodesList_mono (p : CollectParams) :
    ∀ (ns : List DataNodeInfo) (m : List Nat), m ⊆ collectNodesList p m ns := by
  intro ns
  induction ns with
  | nil => intro m; exact List.Subset.refl _
  | cons dn rest ih =>
    intro m
    unfold collectNodesList
    exact List.Subset.trans (collectDiskList_mono p dn.diskInfos m) (ih _)

theorem collectNodesList_hit (p : CollectParams) :
    ∀ (ns : List DataNodeInfo) (m : List Nat) (dn : DataNodeInfo) (d : DiskInfo)
      (v : VolumeInfo),
      (∀ d2 ∈ dn.diskInfos, ∀ w ∈ d2.volumeInfos, p.collectionPattern ≠ "" →
        p.matchFn p.collectionPattern w.collection ≠ none) →
      dn ∈ ns → d ∈ dn.diskInfos → v ∈ d.volumeInfos → Qualifies p v → PatternOk p v →
      v.id ∈ collectNodesList p m ns := by
  intro ns
  induction ns with
  | nil => intro m dn d v _ hdn; cases hdn
  | cons dn0 rest ih =>
    intro m dn d v hne hdn hd hv hq hp
    unfold collectNodesList
    rcases List.mem_cons.mp hdn with rfl | hdn
    · exact collectNodesList_mono p rest _ (collectDiskList_hit p dn.diskInfos m d v hne hd hv hq hp)
    · exact ih _ dn d v hne hdn hd hv hq hp

/-! ### Claims C3, C4 and C10 -/

/-- Claim C3: every volume id returned by collectVolumeIdsForTierChange
comes from a snapshot volume record satisfying all four selection criteria
(disk type equals the source tier, the collection glob-matches a non-empty
pattern, the time since last modification is at least the quiet period, the
size exceeds fullPercent over 100 times the size limit in bytes), and no
volume id appears twice in the output. -/
theorem C3_collect_sound (p : CollectParams) (topologyInfo : List DataNodeInfo)
    (vids : List Nat)
    (h : collectVolumeIdsForTierChange p topologyInfo = Except.ok vids) :
    vids.Nodup ∧ ∀ vid ∈ vids, ∃ v : VolumeInfo,
      (∃ dn ∈ topologyInfo, ∃ d ∈ dn.diskInfos, v ∈ d.volumeInfos) ∧
      v.id = vid ∧
      p.toDiskTypeFn v.diskType = p.sourceTier ∧
      (p.collectionPattern ≠ "" →
        p.matchFn p.collectionPattern v.collection = some true) ∧
      p.nowUnixSeconds - v.modifiedAtSecond ≥ p.quietSeconds ∧
      (v.size : ℚ) > p.fullPercentage / 100 * (p.volumeSizeLimitMb : ℚ) * 1024 * 1024 := by
  have hv : vids = collectNodesList p [] topologyInfo := by
    unfold collectVolumeIdsForTierChange at h
    injection h with h
    exact h.symm
  subst hv
  refine ⟨collectNodesList_nodup p topologyInfo [] List.nodup_nil, ?_⟩
  intro vid hvid
  rcases collectNodesList_sound p topologyInfo [] vid hvid with
    h0 | ⟨dn, hdn, d, hd, v, hvv, rfl, hq, hp⟩
  · cases h0
  · exact ⟨v, ⟨dn, hdn, d, hd, hvv⟩, rfl, hq.2.1, hp,
      by have := hq.1; omega, hq.2.2⟩

/-- Witness for claim C3 at the spec's scenario: tier hdd, a volume at 96
percent of a 30000 MB limit written two days ago is selected and the
output satisfies all criteria. -/
theorem C3_collect_sound_witness :
    [42].Nodup ∧ ∀ vid ∈ [42], ∃ v : VolumeInfo,
      (∃ dn ∈ scenarioTopo, ∃ d ∈ dn.diskInfos, v ∈ d.volumeInfos) ∧
      v.id = vid ∧
      scenarioParams.toDiskTypeFn v.diskType = scenarioParams.sourceTier ∧
      (scenarioParams.collectionPattern ≠ "" →
        scenarioParams.matchFn scenarioParams.collectionPattern v.collection = some true) ∧
      scenarioParams.nowUnixSeconds - v.modifiedAtSecond ≥ scenarioParams.quietSeconds ∧
      (v.size : ℚ) > scenarioParams.fullPercentage / 100 *
        (scenarioParams.volumeSizeLimitMb : ℚ) * 1024 * 1024 :=
  C3_collect_sound scenarioParams scenarioTopo [42] (by
    norm_num [collectVolumeIdsForTierChange, collectNodesList, collectDiskList,
      collectVolumeList, stepOnVolume, addIfQualifies, insertVid, scenarioParams,
      scenarioTopo, scenarioDisk, scenarioVol96, scenarioVol80, scenarioVolRecent,
      scenarioVolExact])

/-- Claim C4 as stated is false on the code: a volume whose time since last
modification exactly equals the quiet period meets every other criterion
yet is not selected, because collectVolumeIdsForTierChange requires
modifiedAtSecond plus quietSeconds to be strictly below the clock. -/
theorem C4_counterexample :
    scenarioParams.nowUnixSeconds - scenarioVolExact.modifiedAtSecond =
      scenarioParams.quietSeconds ∧
    scenarioParams.toDiskTypeFn scenarioVolExact.diskType = scenarioParams.sourceTier ∧
    scenarioParams.collectionPattern = "" ∧
    (scenarioVolExact.size : ℚ) > scenarioParams.fullPercentage / 100 *
      (scenarioParams.volumeSizeLimitMb : ℚ) * 1024 * 1024 ∧
    collectVolumeIdsForTierChange scenarioParams scenarioTopoExact = Except.ok [] := by
  refine ⟨by norm_num [scenarioParams, scenarioVolExact], rfl, rfl,
    by norm_num [scenarioParams, scenarioVolExact], ?_⟩
  norm_num [collectVolumeIdsForTierChange, collectNodesList, collectDiskList,
    collectVolumeList, stepOnVolume, addIfQualifies, insertVid, scenarioParams,
    scenarioTopoExact, scenarioDiskExact, scenarioVolExact]

/-- Claim C4 amended: the selector skips a volume on grounds of recency
exactly when the time since its last modification is less than or equal to
the quiet period; every volume strictly quieter than the quiet period that
meets every other criterion, on a data node whose volumes raise no
pattern-match error, is selected. -/
theorem C4_amended_strict_quiet (p : CollectParams) (topologyInfo : List DataNodeInfo)
    (dn : DataNodeInfo) (d : DiskInfo) (v : VolumeInfo)
    (hdn : dn ∈ topologyInfo) (hd : d ∈ dn.diskInfos) (hv : v ∈ d.volumeInfos)
    (hnoerr : ∀ d2 ∈ dn.diskInfos, ∀ w ∈ d2.volumeInfos, p.collectionPattern ≠ "" →
      p.matchFn p.collectionPattern w.collection ≠ none)
    (hquiet : p.nowUnixSeconds - v.modifiedAtSecond > p.quietSeconds)
    (htier : p.toDiskTypeFn v.diskType = p.sourceTier)
    (hpat : PatternOk p v)
    (hsize : (v.size : ℚ) > p.fullPercentage / 100 *
      (p.volumeSizeLimitMb : ℚ) * 1024 * 1024) :
    ∃ vids, collectVolumeIdsForTierChange p topologyInfo = Except.ok vids ∧
      v.id ∈ vids :=
  ⟨collectNodesList p [] topologyInfo, rfl,
    collectNodesList_hit p topologyInfo [] dn d v hnoerr hdn hd hv
      ⟨by omega, htier, hsize⟩ hpat⟩

/-- Witness for the amended claim C4: the scenario volume strictly quieter
than the quiet period is selected. -/
theorem C4_amended_strict_quiet_witness :
    ∃ vids, collectVolumeIdsForTierChange scenarioParams scenarioTopo = Except.ok vids ∧
      scenarioVol96.id ∈ vids :=
  C4_amended_strict_quiet scenarioParams scenarioTopo
    { id := "A", diskInfos := [scenarioDisk] } scenarioDisk scenarioVol96
    (by simp [scenarioTopo]) (by simp) (by simp [scenarioDisk])
    (by intro d2 hd2 w hw hpat; exact absurd rfl hpat)
    (by norm_num [scenarioParams, scenarioVol96])
    rfl
    (fun hpat => absurd rfl hpat)
    (by norm_num [scenarioParams, scenarioVol96])

/-- Claim C10: a malformed glob pattern does not surface an error from the
selector; when the matcher reports an error on a volume, the remaining
volumes and disks of that data node are silently omitted, while qualifying
volumes seen before the error and volumes of later data nodes are still
returned. -/
theorem C10_match_error_skips_node (p : CollectParams) (v1 vbad v2 v3 : VolumeInfo)
    (d1 d2 d3 : DiskInfo) (n1 n2 : DataNodeInfo)
    (hd1 : d1.volumeInfos = [v1, vbad])
    (hd2 : d2.volumeInfos = [v2])
    (hd3 : d3.volumeInfos = [v3])
    (hn1 : n1.diskInfos = [d1, d2])
    (hn2 : n2.diskInfos = [d3])
    (hpat : p.collectionPattern ≠ "")
    (hm1 : p.matchFn p.collectionPattern v1.collection = some true)
    (hmbad : p.matchFn p.collectionPattern vbad.collection = none)
    (hm3 : p.matchFn p.collectionPattern v3.collection = some true)
    (hq1 : Qualifies p v1)
    (hq3 : Qualifies p v3)
    (hne13 : v1.id ≠ v3.id)
    (hne21 : v2.id ≠ v1.id)
    (hne23 : v2.id ≠ v3.id) :
    collectVolumeIdsForTierChange p [n1, n2] = Except.ok [v1.id, v3.id] ∧
      v2.id ∉ [v1.id, v3.id] := by
  constructor
  · simp [collectVolumeIdsForTierChange, collectNodesList, collectDiskList,
      collectVolumeList, stepOnVolume, addIfQualifies_eq, hn1, hn2, hd1, hd3,
      hpat, hm1, hmbad, hm3, hq1, hq3, insertVid, hne13, Ne.symm hne13]
  · simp [hne21, hne23]

/-- Witness for claim C10 at a concrete topology: the matcher errors on
the second volume of the first node, its later disk is omitted, the second
node is still scanned. -/
theorem C10_match_error_skips_node_witness :
    collectVolumeIdsForTierChange c10Params [c10n1, c10n2] =
      Except.ok [c10v1.id, c10v3.id] ∧
      c10v2.id ∉ [c10v1.id, c10v3.id] :=
  C10_match_error_skips_node c10Params c10v1 c10vbad c10v2 c10v3 c10d1 c10d2 c10d3
    c10n1 c10n2 rfl rfl rfl rfl rfl (by simp [c10Params]) rfl rfl rfl
    (by refine ⟨by norm_num [c10Params, c10v1], rfl, ?_⟩
        norm_num [c10Params, c10v1])
    (by refine ⟨by norm_num [c10Params, c10v3], rfl, ?_⟩
        norm_num [c10Params, c10v3])
    (by simp [c10v1, c10v3]) (by simp [c10v2, c10v1]) (by simp [c10v2, c10v3])

/-! ### Lemmas about the migration executor -/

theorem deleteRemaining_all_attempted (env : Env) (vid : Nat) (dstId srcId : String) :
    ∀ (todo reps : List String) (loc : String), loc ∈ todo → loc ≠ dstId → loc ≠ srcId →
      Event.deleteVol vid loc ∈ (deleteRemaining env vid dstId srcId todo reps).1 := by
  intro todo
  induction todo with
  | nil => intro reps loc h; cases h
  | cons x rest ih =>
    intro reps loc hmem hd hs
    unfold deleteRemaining
    rcases List.mem_cons.mp hmem with rfl | hmem
    · rw [if_pos ⟨hd, hs⟩]
      split
      · exact List.mem_cons_self _ _
      · exact List.mem_cons_self _ _
    · split
      · split
        · exact List.mem_cons_of_mem _ (ih _ loc hmem hd hs)
        · exact List.mem_cons_of_mem _ (List.mem_cons_of_mem _ (ih _ loc hmem hd hs))
      · exact ih _ loc hmem hd hs

theorem deleteRemaining_failures_logged (env : Env) (vid : Nat) (dstId srcId : String) :
    ∀ (todo reps : List String) (loc : String), loc ∈ todo → loc ≠ dstId → loc ≠ srcId →
      env.deleteVolumeOk vid loc = false →
      Event.msgDeleteFailed vid loc ∈ (deleteRemaining env vid dstId srcId todo reps).1 := by
  intro todo
  induction todo with
  | nil => intro reps loc h; cases h
  | cons x rest ih =>
    intro reps loc hmem hd hs hfail
    unfold deleteRemaining
    rcases List.mem_cons.mp hmem with rfl | hmem
    · rw [if_pos ⟨hd, hs⟩, hfail]
      simp
    · split
      · split
        · exact List.mem_cons_of_mem _ (ih _ loc hmem hd hs hfail)
        · exact List.mem_cons_of_mem _ (List.mem_cons_of_mem _ (ih _ loc hmem hd hs hfail))
      · exact ih _ loc hmem hd hs hfail

theorem deleteRemaining_events_shape (env : Env) (vid : Nat) (dstId srcId : String) :
    ∀ (todo reps : List String) (e : Event),
      e ∈ (deleteRemaining env vid dstId srcId todo reps).1 →
      (∃ l, e = Event.deleteVol vid l) ∨ ∃ l, e = Event.msgDeleteFailed vid l := by
  intro todo
  induction todo with
  | nil => intro reps e h; cases h
  | cons x rest ih =>
    intro reps e he
    unfold deleteRemaining at he
    split at he
    · split at he
      · rcases List.mem_cons.mp he with rfl | he
        · exact Or.inl ⟨x, rfl⟩
        · exact ih _ e he
      · rcases List.mem_cons.mp he with rfl | he
        · exact Or.inl ⟨x, rfl⟩
        · rcases List.mem_cons.mp he with rfl | he
          · exact Or.inr ⟨x, rfl⟩
          · exact ih _ e he
    · exact ih _ e he

theorem deleteRemaining_keeps (env : Env) (vid : Nat) (dstId srcId : String) :
    ∀ (todo reps : List String) (x : String), (x = dstId ∨ x = srcId) → x ∈ reps →
      x ∈ (deleteRemaining env vid dstId srcId todo reps).2 := by
  intro todo
  induction todo with
  | nil => intro reps x _ hx; exact hx
  | cons y rest ih =>
    intro reps x hor hx
    unfold deleteRemaining
    split
    · next hcond =>
      split
      · refine ih _ x hor ?_
        have hne : x ≠ y := by
          rcases hor with rfl | rfl
          · exact fun hc => hcond.1 hc.symm
          · exact fun hc => hcond.2 hc.symm
        exact (List.mem_erase_of_ne hne).mpr hx
      · exact ih _ x hor hx
    · exact ih _ x hor hx

theorem deleteRemaining_replicas (env : Env) (vid : Nat) (dstId srcId : String) :
    ∀ (todo pre tail : List String), todo.Nodup →
      (∀ x ∈ todo, x ∉ pre) → (∀ x ∈ todo, x ∉ tail) →
      (deleteRemaining env vid dstId srcId todo (pre ++ todo ++ tail)).2 =
        pre ++ todo.filter
          (fun loc => loc == dstId || loc == srcId || !env.deleteVolumeOk vid loc) ++ tail := by
  intro todo
  induction todo with
  | nil => intro pre tail _ _ _; simp [deleteRemaining]
  | cons x rest ih =>
    intro pre tail hnd hpre htail
    have hxpre : x ∉ pre := hpre x (List.mem_cons_self x rest)
    have hrestpre : ∀ y ∈ rest, y ∉ pre := fun y hy => hpre y (List.mem_cons_of_mem x hy)
    have hresttail : ∀ y ∈ rest, y ∉ tail := fun y hy => htail y (List.mem_cons_of_mem x hy)
    have hxrest : x ∉ rest := (List.nodup_cons.mp hnd).1
    have hrestnd : rest.Nodup := (List.nodup_cons.mp hnd).2
    have hrestpre2 : ∀ y ∈ rest, y ∉ pre ++ [x] := by
      intro y hy
      simp only [List.mem_append, List.mem_singleton]
      rintro (hc | rfl)
      · exact hrestpre y hy hc
      · exact hxrest hy
    unfold deleteRemaining
    split
    · next hcond =>
      cases hok : env.deleteVolumeOk vid x with
      | true =>
        show (deleteRemaining env vid dstId srcId rest
          ((pre ++ x :: rest ++ tail).erase x)).2 = _
        have herase : (pre ++ x :: rest ++ tail).erase x = pre ++ rest ++ tail := by
          rw [List.append_assoc, List.erase_append_right _ hxpre, List.cons_append,
            List.erase_cons_head, ← List.append_assoc]
        simp only [List.filter_cons]
        rw [if_neg (by simp [hok, hcond.1, hcond.2])]
        rw [herase]
        exact ih pre tail hrestnd hrestpre hresttail
      | false =>
        show (deleteRemaining env vid dstId srcId rest (pre ++ x :: rest ++ tail)).2 = _
        simp only [List.filter_cons]
        rw [if_pos (by simp [hok])]
        have harr : pre ++ x :: rest ++ tail = (pre ++ [x]) ++ rest ++ tail := by simp
        rw [harr, ih (pre ++ [x]) tail hrestnd hrestpre2 hresttail]
        simp
    · next hcond =>
      show (deleteRemaining env vid dstId srcId rest (pre ++ x :: rest ++ tail)).2 = _
      have hfx : (x == dstId || x == srcId || !env.deleteVolumeOk vid x) = true := by
        rcases not_and_or.mp hcond with hc | hc
        · simp [Decidable.not_not.mp hc]
        · simp [Decidable.not_not.mp hc]
      simp only [List.filter_cons]
      rw [if_pos hfx]
      have harr : pre ++ x :: rest ++ tail = (pre ++ [x]) ++ rest ++ tail := by simp
      rw [harr, ih (pre ++ [x]) tail hrestnd hrestpre2 hresttail]
      simp

theorem doMoveOneVolume_events_shape (env : Env) (vid : Nat) (toD : String)
    (locations : List String) (src dstId : String) (topo : List DataNodeInfo) :
    ∀ e ∈ (doMoveOneVolume env vid toD locations src dstId topo).events,
      e.isDispatch = false ∧ e.isJoin = false := by
  intro e he
  unfold doMoveOneVolume at he
  split at he
  · split at he
    · simp only at he
      rcases List.mem_cons.mp he with rfl | he
      · exact ⟨rfl, rfl⟩
      rcases List.mem_cons.mp he with rfl | he
      · exact ⟨rfl, rfl⟩
      rcases deleteRemaining_events_shape env vid dstId src _ _ e he with ⟨l, rfl⟩ | ⟨l, rfl⟩
      · exact ⟨rfl, rfl⟩
      · exact ⟨rfl, rfl⟩
    · simp only at he
      rcases List.mem_cons.mp he with rfl | he
      · exact ⟨rfl, rfl⟩
      rcases List.mem_cons.mp he with rfl | he
      · exact ⟨rfl, rfl⟩
      cases he
  · simp only at he
    rcases List.mem_cons.mp he with rfl | he
    · exact ⟨rfl, rfl⟩
    cases he

/-! ### Claims C1, C8 and C9 -/

/-- Claim C8: when the readonly-mark RPC fails, doMoveOneVolume returns the
error at once with no copy and no delete RPC issued and no counter change;
at the doVolumeTierMove level the failure is reported on the writer, the
function returns nil (non-fatal to the batch), the topology is only
reordered, and the candidate loop goes on to process the remaining
volumes. -/
theorem C8_markReadonly_failure (env : Env) (vid : Nat) (toD : String)
    (locations : List String) (allLoc : List DataNodeInfo) (dstNode : DataNodeInfo)
    (hmark : env.markVolumeReadonlyOk vid locations = false)
    (hloc : env.getLocations vid = some locations)
    (hfind : (keepDataNodesSorted allLoc toD).find? (viableTarget toD locations) =
      some dstNode) :
    (doMoveOneVolume env vid toD locations (pickSource locations dstNode.id) dstNode.id
        (keepDataNodesSorted allLoc toD)).err = some MoveErr.markReadonlyFailed ∧
    (doMoveOneVolume env vid toD locations (pickSource locations dstNode.id) dstNode.id
        (keepDataNodesSorted allLoc toD)).topo = keepDataNodesSorted allLoc toD ∧
    (doMoveOneVolume env vid toD locations (pickSource locations dstNode.id) dstNode.id
        (keepDataNodesSorted allLoc toD)).events = [Event.markReadonly vid locations] ∧
    (doVolumeTierMove env vid toD allLoc true).err = none ∧
    (doVolumeTierMove env vid toD allLoc true).topo = keepDataNodesSorted allLoc toD ∧
    (doVolumeTierMove env vid toD allLoc true).events =
      [Event.msgMoving vid (pickSource locations dstNode.id) dstNode.id,
       Event.dispatch vid (pickSource locations dstNode.id) dstNode.id,
       Event.markReadonly vid locations,
       Event.msgMoveFailed vid (pickSource locations dstNode.id) dstNode.id,
       Event.wgWait] ∧
    (∀ (rest : List Nat) (topo0 : List DataNodeInfo), ∃ evs,
      (tierMoveLoop env toD true (vid :: rest) topo0).2 =
        evs ++ (tierMoveLoop env toD true rest
          (doVolumeTierMove env vid toD topo0 true).topo).2) := by
  have hone : doMoveOneVolume env vid toD locations (pickSource locations dstNode.id)
      dstNode.id (keepDataNodesSorted allLoc toD) =
      { err := some MoveErr.markReadonlyFailed, topo := keepDataNodesSorted allLoc toD
        events := [Event.markReadonly vid locations], replicas := locations } := by
    simp [doMoveOneVolume, hmark]
  have htier : doVolumeTierMove env vid toD allLoc true =
      { err := none, topo := keepDataNodesSorted allLoc toD
        events := [Event.msgMoving vid (pickSource locations dstNode.id) dstNode.id,
          Event.dispatch vid (pickSource locations dstNode.id) dstNode.id,
          Event.markReadonly vid locations,
          Event.msgMoveFailed vid (pickSource locations dstNode.id) dstNode.id,
          Event.wgWait] } := by
    unfold doVolumeTierMove
    rw [hloc]
    simp only [hfind, hone, if_pos]
    rfl
  refine ⟨by rw [hone], by rw [hone], by rw [hone], by rw [htier], by rw [htier],
    by rw [htier], ?_⟩
  intro rest topo0
  refine ⟨(doVolumeTierMove env vid toD topo0 true).events ++
    (match (doVolumeTierMove env vid toD topo0 true).err with
      | some _ => [Event.msgTierMoveError vid]
      | none => []), ?_⟩
  rfl

/-- Witness for claim C8 on a concrete cluster: node A holds the replica,
node B has free ssd slots, the readonly-mark fails. -/
theorem C8_markReadonly_failure_witness :
    (doVolumeTierMove markFailEnv 7 "ssd" [nodeA, nodeB] true).err = none ∧
    (doVolumeTierMove markFailEnv 7 "ssd" [nodeA, nodeB] true).events =
      [Event.msgMoving 7 "A" "B", Event.dispatch 7 "A" "B",
       Event.markReadonly 7 ["A"], Event.msgMoveFailed 7 "A" "B", Event.wgWait] := by
  have h := C8_markReadonly_failure markFailEnv 7 "ssd" ["A"] [nodeA, nodeB] nodeB
    rfl rfl (by decide)
  exact ⟨h.2.2.2.1, h.2.2.2.2.2.1⟩

/-- Claim C9: when the copy succeeded, each failing stale-replica delete is
logged individually, every stale replica is still attempted, the copy at
the destination is not rolled back, and doMoveOneVolume returns nil. -/
theorem C9_cleanup_failure_nonfatal (env : Env) (vid : Nat) (toD : String)
    (locations : List String) (src dstId : String) (topo : List DataNodeInfo)
    (hmark : env.markVolumeReadonlyOk vid locations = true)
    (hlive : env.liveMoveVolumeOk vid src dstId = true) :
    (doMoveOneVolume env vid toD locations src dstId topo).err = none ∧
    (∀ loc ∈ locations, loc ≠ dstId → loc ≠ src →
      Event.deleteVol vid loc ∈ (doMoveOneVolume env vid toD locations src dstId topo).events) ∧
    (∀ loc ∈ locations, loc ≠ dstId → loc ≠ src → env.deleteVolumeOk vid loc = false →
      Event.msgDeleteFailed vid loc ∈
        (doMoveOneVolume env vid toD locations src dstId topo).events) ∧
    dstId ∈ (doMoveOneVolume env vid toD locations src dstId topo).replicas := by
  have hev : (doMoveOneVolume env vid toD locations src dstId topo).events =
      Event.markReadonly vid locations :: Event.liveMove vid src dstId ::
        (deleteRemaining env vid dstId src locations (locations ++ [dstId])).1 := by
    simp [doMoveOneVolume, hmark, hlive]
  have hrep : (doMoveOneVolume env vid toD locations src dstId topo).replicas =
      (deleteRemaining env vid dstId src locations (locations ++ [dstId])).2 := by
    simp [doMoveOneVolume, hmark, hlive]
  refine ⟨by simp [doMoveOneVolume, hmark, hlive], ?_, ?_, ?_⟩
  · intro loc hmem hd hs
    rw [hev]
    exact List.mem_cons_of_mem _ (List.mem_cons_of_mem _
      (deleteRemaining_all_attempted env vid dstId src locations _ loc hmem hd hs))
  · intro loc hmem hd hs hfail
    rw [hev]
    exact List.mem_cons_of_mem _ (List.mem_cons_of_mem _
      (deleteRemaining_failures_logged env vid dstId src locations _ loc hmem hd hs hfail))
  · rw [hrep]
    exact deleteRemaining_keeps env vid dstId src locations _ dstId (Or.inl rfl) (by simp)

/-- Witness for claim C9: three replicas at a, b and c, copy from c to d
succeeds, the delete of the stale replica at a fails and is logged while
the delete at b still happens; the move returns nil. -/
theorem C9_cleanup_failure_nonfatal_witness :
    (doMoveOneVolume threeRepFailAEnv 7 "ssd" ["a", "b", "c"] "c" "d" []).err = none ∧
    Event.deleteVol 7 "a" ∈
      (doMoveOneVolume threeRepFailAEnv 7 "ssd" ["a", "b", "c"] "c" "d" []).events ∧
    Event.msgDeleteFailed 7 "a" ∈
      (doMoveOneVolume threeRepFailAEnv 7 "ssd" ["a", "b", "c"] "c" "d" []).events ∧
    Event.deleteVol 7 "b" ∈
      (doMoveOneVolume threeRepFailAEnv 7 "ssd" ["a", "b", "c"] "c" "d" []).events ∧
    "d" ∈ (doMoveOneVolume threeRepFailAEnv 7 "ssd" ["a", "b", "c"] "c" "d" []).replicas := by
  have h := C9_cleanup_failure_nonfatal threeRepFailAEnv 7 "ssd" ["a", "b", "c"] "c" "d" []
    rfl rfl
  exact ⟨h.1, h.2.1 "a" (by decide) (by decide) (by decide),
    h.2.2.1 "a" (by decide) (by decide) (by decide) rfl,
    h.2.1 "b" (by decide) (by decide) (by decide), h.2.2.2⟩

/-- Claim C1: for a three-replica volume whose migration completes, the two
replicas that are neither the destination nor the retained copy source are
deleted; when both deletes succeed exactly the destination and the retained
source remain, and when one delete fails the count stays at three with the
destination and the retained source still present. The effect of the
external LiveMoveVolume is modelled from the spec (after a successful copy
the volume exists at both source and destination). -/
theorem C1_three_replica_migration (env : Env) (vid : Nat) (toD : String)
    (a b c dstId : String) (topo : List DataNodeInfo)
    (hab : a ≠ b) (hac : a ≠ c) (hbc : b ≠ c)
    (hda : dstId ≠ a) (hdb : dstId ≠ b) (hdc : dstId ≠ c)
    (hmark : env.markVolumeReadonlyOk vid [a, b, c] = true)
    (hlive : env.liveMoveVolumeOk vid c dstId = true) :
    (doMoveOneVolume env vid toD [a, b, c] c dstId topo).err = none ∧
    Event.deleteVol vid a ∈ (doMoveOneVolume env vid toD [a, b, c] c dstId topo).events ∧
    Event.deleteVol vid b ∈ (doMoveOneVolume env vid toD [a, b, c] c dstId topo).events ∧
    dstId ∈ (doMoveOneVolume env vid toD [a, b, c] c dstId topo).replicas ∧
    c ∈ (doMoveOneVolume env vid toD [a, b, c] c dstId topo).replicas ∧
    (env.deleteVolumeOk vid a = true → env.deleteVolumeOk vid b = true →
      (doMoveOneVolume env vid toD [a, b, c] c dstId topo).replicas = [c, dstId]) ∧
    (env.deleteVolumeOk vid a = false → env.deleteVolumeOk vid b = true →
      (doMoveOneVolume env vid toD [a, b, c] c dstId topo).replicas = [a, c, dstId]) ∧
    (env.deleteVolumeOk vid a = true → env.deleteVolumeOk vid b = false →
      (doMoveOneVolume env vid toD [a, b, c] c dstId topo).replicas = [b, c, dstId]) := by
  have hev : (doMoveOneVolume env vid toD [a, b, c] c dstId topo).events =
      Event.markReadonly vid [a, b, c] :: Event.liveMove vid c dstId ::
        (deleteRemaining env vid dstId c [a, b, c] ([a, b, c] ++ [dstId])).1 := by
    simp [doMoveOneVolume, hmark, hlive]
  have hrep : (doMoveOneVolume env vid toD [a, b, c] c dstId topo).replicas =
      List.filter (fun loc => loc == dstId || loc == c || !env.deleteVolumeOk vid loc)
        [a, b, c] ++ [dstId] := by
    have hbase : (doMoveOneVolume env vid toD [a, b, c] c dstId topo).replicas =
        (deleteRemaining env vid dstId c [a, b, c] ([a, b, c] ++ [dstId])).2 := by
      simp [doMoveOneVolume, hmark, hlive]
    rw [hbase]
    have := deleteRemaining_replicas env vid dstId c [a, b, c] [] [dstId]
      (by simp [hab, hac, hbc]) (by simp) (by simp [Ne.symm hda, Ne.symm hdb, Ne.symm hdc])
    simpa using this
  refine ⟨by simp [doMoveOneVolume, hmark, hlive], ?_, ?_, ?_, ?_, ?_, ?_, ?_⟩
  · rw [hev]
    exact List.mem_cons_of_mem _ (List.mem_cons_of_mem _
      (deleteRemaining_all_attempted env vid dstId c [a, b, c] _ a (by simp)
        (Ne.symm hda) hac))
  · rw [hev]
    exact List.mem_cons_of_mem _ (List.mem_cons_of_mem _
      (deleteRemaining_all_attempted env vid dstId c [a, b, c] _ b (by simp)
        (Ne.symm hdb) hbc))
  · rw [hrep]; simp
  · rw [hrep]
    simp [List.mem_filter]
  · intro hokA hokB
    rw [hrep]
    simp [List.filter_cons, hokA, hokB, Ne.symm hda, Ne.symm hdb, Ne.symm hdc, hac, hbc]
  · intro hokA hokB
    rw [hrep]
    simp [List.filter_cons, hokA, hokB, Ne.symm hda, Ne.symm hdb, Ne.symm hdc, hac, hbc]
  · intro hokA hokB
    rw [hrep]
    simp [List.filter_cons, hokA, hokB, Ne.symm hda, Ne.symm hdb, Ne.symm hdc, hac, hbc]

/-- Witness for claim C1 at a concrete three-replica volume: with all
deletes succeeding two replicas remain, with the delete at a failing three
remain and destination and retained source are among them. -/
theorem C1_three_replica_migration_witness :
    (doMoveOneVolume threeRepEnv 7 "ssd" ["a", "b", "c"] "c" "d" []).replicas = ["c", "d"] ∧
    (doMoveOneVolume threeRepFailAEnv 9 "ssd" ["a", "b", "c"] "c" "d" []).replicas =
      ["a", "c", "d"] := by
  have h1 := C1_three_replica_migration threeRepEnv 7 "ssd" "a" "b" "c" "d" []
    (by decide) (by decide) (by decide) (by decide) (by decide) (by decide) rfl rfl
  have h2 := C1_three_replica_migration threeRepFailAEnv 9 "ssd" "a" "b" "c" "d" []
    (by decide) (by decide) (by decide) (by decide) (by decide) (by decide) rfl rfl
  exact ⟨h1.2.2.2.2.2.1 rfl rfl, h2.2.2.2.2.2.2.1 rfl rfl⟩

/-! ### Claims C6 and C2 -/

/-- Claim C6 as stated is false on the code: a flag parse error does abort
the run before any candidate selection or RPC, but Do then returns nil, not
a non-nil error (the Go code returns nil from the flag.Parse branch). -/
theorem C6_counterexample :
    doEnvParseErr.lockOk = true ∧ doEnvParseErr.parsed = none ∧
    Do doEnvParseErr = (none, []) :=
  ⟨rfl, rfl, rfl⟩

/-- Claim C6 amended: identical tiers, a missing cluster lock and a failed
topology fetch abort the run with a non-nil error and an empty trace; a
flag parse error aborts the run with an empty trace but a nil error; once
setup succeeds, per-volume failures never surface as an error from Do. -/
theorem C6_amended_fatal_setup (denv : DoEnv) :
    (denv.lockOk = false → Do denv = (some DoErr.notLocked, [])) ∧
    (denv.lockOk = true → denv.parsed = none → Do denv = (none, [])) ∧
    (∀ flags, denv.lockOk = true → denv.parsed = some flags →
      denv.toDiskTypeFn flags.source = denv.toDiskTypeFn flags.target →
      Do denv = (some (DoErr.sameTier (denv.toDiskTypeFn flags.source)), [])) ∧
    (∀ flags, denv.lockOk = true → denv.parsed = some flags →
      denv.toDiskTypeFn flags.source ≠ denv.toDiskTypeFn flags.target →
      denv.topo = none → Do denv = (some DoErr.topoFetchFailed, [])) ∧
    (∀ flags topologyInfo volumeSizeLimitMb, denv.lockOk = true →
      denv.parsed = some flags →
      denv.toDiskTypeFn flags.source ≠ denv.toDiskTypeFn flags.target →
      denv.topo = some (topologyInfo, volumeSizeLimitMb) → (Do denv).1 = none) := by
  refine ⟨?_, ?_, ?_, ?_, ?_⟩
  · intro h; simp [Do, h]
  · intro h1 h2; simp [Do, h1, h2]
  · intro flags h1 h2 h3; simp [Do, h1, h2, h3]
  · intro flags h1 h2 h3 h4; simp [Do, h1, h2, h3, h4]
  · intro flags topologyInfo volumeSizeLimitMb h1 h2 h3 h4
    simp [Do, h1, h2, h3, h4, collectVolumeIdsForTierChange]

/-- Witness for the amended claim C6 at one concrete environment per fatal
condition, plus a successful setup whose run returns no error. -/
theorem C6_amended_fatal_setup_witness :
    Do doEnvNoLock = (some DoErr.notLocked, []) ∧
    Do doEnvParseErr = (none, []) ∧
    Do doEnvSameTier = (some (DoErr.sameTier "hdd"), []) ∧
    Do doEnvNoTopo = (some DoErr.topoFetchFailed, []) ∧
    (Do doEnvOk).1 = none :=
  ⟨(C6_amended_fatal_setup doEnvNoLock).1 rfl,
   (C6_amended_fatal_setup doEnvParseErr).2.1 rfl rfl,
   (C6_amended_fatal_setup doEnvSameTier).2.2.1 sameTierFlags rfl rfl rfl,
   (C6_amended_fatal_setup doEnvNoTopo).2.2.2.1 hddToSsdFlags rfl rfl (by decide) rfl,
   (C6_amended_fatal_setup doEnvOk).2.2.2.2 hddToSsdFlags [] 30000 rfl rfl (by decide) rfl⟩

theorem scanOutstanding_append :
    ∀ (t s : List Event) (n : Nat),
      scanOutstanding (t ++ s) n = (scanOutstanding t n).bind (fun m => scanOutstanding s m) := by
  intro t
  induction t with
  | nil => intro s n; rfl
  | cons e t ih =>
    intro s n
    show scanOutstanding (e :: (t ++ s)) n = _
    by_cases hd : e.isDispatch = true
    · by_cases hn : n = 0
      · subst hn
        have l1 : scanOutstanding (e :: (t ++ s)) 0 = scanOutstanding (t ++ s) 1 := by
          simp [scanOutstanding, hd]
        have l2 : scanOutstanding (e :: t) 0 = scanOutstanding t 1 := by
          simp [scanOutstanding, hd]
        rw [l1, l2, ih]
      · have l1 : scanOutstanding (e :: (t ++ s)) n = none := by
          simp [scanOutstanding, hd, hn]
        have l2 : scanOutstanding (e :: t) n = none := by
          simp [scanOutstanding, hd, hn]
        rw [l1, l2]; rfl
    · by_cases hj : e.isJoin = true
      · have l1 : scanOutstanding (e :: (t ++ s)) n = scanOutstanding (t ++ s) 0 := by
          simp [scanOutstanding, hd, hj]
        have l2 : scanOutstanding (e :: t) n = scanOutstanding t 0 := by
          simp [scanOutstanding, hd, hj]
        rw [l1, l2, ih]
      · have l1 : scanOutstanding (e :: (t ++ s)) n = scanOutstanding (t ++ s) n := by
          simp [scanOutstanding, hd, hj]
        have l2 : scanOutstanding (e :: t) n = scanOutstanding t n := by
          simp [scanOutstanding, hd, hj]
        rw [l1, l2, ih]

theorem scanOutstanding_no_tasks :
    ∀ (t : List Event) (n : Nat),
      (∀ e ∈ t, e.isDispatch = false ∧ e.isJoin = false) →
      scanOutstanding t n = some n := by
  intro t
  induction t with
  | nil => intro n _; rfl
  | cons e t ih =>
    intro n h
    have he := h e (List.mem_cons_self e t)
    have l1 : scanOutstanding (e :: t) n = scanOutstanding t n := by
      simp [scanOutstanding, he.1, he.2]
    rw [l1]
    exact ih n (fun x hx => h x (List.mem_cons_of_mem e hx))

theorem scanOutstanding_tierMove (env : Env) (vid : Nat) (toDiskType : String)
    (topo : List DataNodeInfo) (applyChanges : Bool) :
    scanOutstanding (doVolumeTierMove env vid toDiskType topo applyChanges).events 0 =
      some 0 := by
  unfold doVolumeTierMove
  cases hloc : env.getLocations vid with
  | none => rfl
  | some locations =>
    dsimp only
    cases hfind : (keepDataNodesSorted topo toDiskType).find?
        (viableTarget toDiskType locations) with
    | none => simp [scanOutstanding, Event.isDispatch, Event.isJoin]
    | some dst =>
      cases applyChanges with
      | false => simp [scanOutstanding, Event.isDispatch, Event.isJoin]
      | true =>
        dsimp only
        rw [if_pos rfl]
        dsimp only
        have hshape := doMoveOneVolume_events_shape env vid toDiskType locations
          (pickSource locations dst.id) dst.id (keepDataNodesSorted topo toDiskType)
        generalize hmo : doMoveOneVolume env vid toDiskType locations
          (pickSource locations dst.id) dst.id (keepDataNodesSorted topo toDiskType) = mo
        rw [hmo] at hshape
        have h1 : scanOutstanding (Event.msgMoving vid (pickSource locations dst.id) dst.id ::
            Event.dispatch vid (pickSource locations dst.id) dst.id :: mo.events) 0 =
            some 1 := by
          have hcons : scanOutstanding (Event.msgMoving vid (pickSource locations dst.id)
              dst.id :: Event.dispatch vid (pickSource locations dst.id) dst.id ::
              mo.events) 0 = scanOutstanding mo.events 1 := by
            simp [scanOutstanding, Event.isDispatch, Event.isJoin]
          rw [hcons]
          exact scanOutstanding_no_tasks mo.events 1 hshape
        rw [scanOutstanding_append, scanOutstanding_append, h1]
        show (scanOutstanding (match mo.err with
          | some _ => [Event.msgMoveFailed vid (pickSource locations dst.id) dst.id]
          | none => []) 1).bind (fun m => scanOutstanding [Event.wgWait] m) = some 0
        cases mo.err with
        | some e => simp [scanOutstanding, Event.isDispatch, Event.isJoin]
        | none => simp [scanOutstanding, Event.isDispatch, Event.isJoin]

/-- Claim C2 as stated is false on the code: with two candidate volumes in
apply mode, the coordinator performs a wg.Wait join before dispatching the
second volume's task, because each doVolumeTierMove joins its own task
before returning; the concrete trace has two dispatches yet fails the
all-dispatches-before-any-wait discipline. -/
theorem C2_counterexample :
    dispatchesAllPrecedeWaits
      (tierMoveLoop allOkEnv "ssd" true [1, 2] [nodeA, nodeB]).2 = false ∧
    ((tierMoveLoop allOkEnv "ssd" true [1, 2] [nodeA, nodeB]).2.filter
      Event.isDispatch).length = 2 := by
  decide

/-- Claim C2 amended: the coordinator joins each dispatched migration task
with wg.Wait inside doVolumeTierMove before moving to the next candidate,
so along the whole candidate-loop trace at most one migration task is ever
outstanding and all tasks are joined when the loop returns. -/
theorem C2_amended_join_per_volume (env : Env) (toDiskType : String)
    (applyChanges : Bool) (volumeIds : List Nat) (topo : List DataNodeInfo) :
    scanOutstanding (tierMoveLoop env toDiskType applyChanges volumeIds topo).2 0 =
      some 0 := by
  induction volumeIds generalizing topo with
  | nil => rfl
  | cons vid rest ih =>
    have hsplit : (tierMoveLoop env toDiskType applyChanges (vid :: rest) topo).2 =
        ((doVolumeTierMove env vid toDiskType topo applyChanges).events ++
          (match (doVolumeTierMove env vid toDiskType topo applyChanges).err with
            | some _ => [Event.msgTierMoveError vid]
            | none => [])) ++
        (tierMoveLoop env toDiskType applyChanges rest
          (doVolumeTierMove env vid toDiskType topo applyChanges).topo).2 := rfl
    rw [hsplit, scanOutstanding_append, scanOutstanding_append,
      scanOutstanding_tierMove]
    have herr : scanOutstanding
        (match (doVolumeTierMove env vid toDiskType topo applyChanges).err with
          | some _ => [Event.msgTierMoveError vid]
          | none => []) 0 = some 0 := by
      split
      · rfl
      · rfl
    simp only [Option.some_bind]
    rw [herr]
    simp only [Option.some_bind]
    exact ih _

/-! ### Claims C7 and C5 -/

theorem find?_split {α : Type} {p : α → Bool} :
    ∀ {l : List α} {a : α}, l.find? p = some a →
      ∃ l1 l2, l = l1 ++ a :: l2 ∧ (∀ x ∈ l1, p x = false) ∧ p a = true := by
  intro l
  induction l with
  | nil => intro a h; cases h
  | cons x rest ih =>
    intro a h
    cases hp : p x with
    | true =>
      rw [List.find?_cons_of_pos _ hp] at h
      injection h with h
      subst h
      exact ⟨[], rest, rfl, fun y hy => absurd hy (List.not_mem_nil y), hp⟩
    | false =>
      rw [List.find?_cons_of_neg _ (by simp [hp])] at h
      obtain ⟨l1, l2, rfl, h1, h2⟩ := ih h
      refine ⟨x :: l1, l2, rfl, ?_, h2⟩
      intro y hy
      rcases List.mem_cons.mp hy with rfl | hy
      · exact hp
      · exact h1 y hy

theorem pickSource_spec (dstId : String) :
    ∀ (locations : List String),
      pickSource locations dstId = "" ∨
      (pickSource locations dstId ∈ locations ∧ pickSource locations dstId ≠ dstId) := by
  have haux : ∀ (l : List String) (acc : String),
      List.foldl (fun acc loc => if loc ≠ dstId then loc else acc) acc l = acc ∨
      (List.foldl (fun acc loc => if loc ≠ dstId then loc else acc) acc l ∈ l ∧
        List.foldl (fun acc loc => if loc ≠ dstId then loc else acc) acc l ≠ dstId) := by
    intro l
    induction l with
    | nil => intro acc; exact Or.inl rfl
    | cons x rest ih =>
      intro acc
      have hstep : List.foldl (fun acc loc => if loc ≠ dstId then loc else acc) acc (x :: rest) =
          List.foldl (fun acc loc => if loc ≠ dstId then loc else acc)
            (if x ≠ dstId then x else acc) rest := rfl
      by_cases hx : x ≠ dstId
      · rw [hstep, if_pos hx]
        rcases ih x with heq | ⟨hmem, hne⟩
        · right
          rw [heq]
          exact ⟨List.mem_cons_self x rest, hx⟩
        · right
          exact ⟨List.mem_cons_of_mem x hmem, hne⟩
      · rw [hstep, if_neg hx]
        rcases ih acc with heq | ⟨hmem, hne⟩
        · left
          exact heq
        · right
          exact ⟨List.mem_cons_of_mem x hmem, hne⟩
  intro locations
  exact haux locations ""

theorem pickSource_ne_empty (dstId : String) :
    ∀ (locations : List String), isOneOf dstId locations = false →
      locations ≠ [] → "" ∉ locations → pickSource locations dstId ≠ "" := by
  have haux : ∀ (l : List String) (acc : String), acc ≠ "" → "" ∉ l →
      List.foldl (fun acc loc => if loc ≠ dstId then loc else acc) acc l ≠ "" := by
    intro l
    induction l with
    | nil => intro acc hacc _; exact hacc
    | cons x rest ih =>
      intro acc hacc hnem
      show List.foldl _ (if x ≠ dstId then x else acc) rest ≠ ""
      have hx : x ≠ "" := fun hc => hnem (hc ▸ List.mem_cons_self x rest)
      have hnem2 : "" ∉ rest := fun hc => hnem (List.mem_cons_of_mem x hc)
      by_cases hxd : x ≠ dstId
      · rw [if_pos hxd]
        exact ih x hx hnem2
      · rw [if_neg hxd]
        exact ih acc hacc hnem2
  intro locations hone hne hnem
  cases locations with
  | nil => exact absurd rfl hne
  | cons x rest =>
    have hxd : x ≠ dstId := by
      intro hc
      have : isOneOf dstId (x :: rest) = true := by
        simp [isOneOf, hc]
      rw [this] at hone
      cases hone
    have hx : x ≠ "" := fun hc => hnem (hc ▸ List.mem_cons_self x rest)
    have hnem2 : "" ∉ rest := fun hc => hnem (List.mem_cons_of_mem x hc)
    show List.foldl _ (if x ≠ dstId then x else "") rest ≠ ""
    rw [if_pos hxd]
    exact haux rest x hx hnem2

/-- Claim C7: the walk over the destination nodes sorted descending by free
capacity for the target tier skips every node already hosting a replica of
the volume (even with free capacity) and every node without free slots,
acts on the first viable node as destination paired with a replica location
different from it as copy source; when no node is viable, a non-fatal
no-target message is emitted, no error is returned and the topology is
only reordered. -/
theorem C7_destination_walk (env : Env) (vid : Nat) (toDiskType : String)
    (allLocations : List DataNodeInfo) (locations : List String)
    (hloc : env.getLocations vid = some locations)
    (hne : locations ≠ []) (hnem : "" ∉ locations) :
    (keepDataNodesSorted allLocations toDiskType).Sorted
      (fun x y => freeVolumeCount toDiskType y ≤ freeVolumeCount toDiskType x) ∧
    (∀ dst, (keepDataNodesSorted allLocations toDiskType).find?
        (viableTarget toDiskType locations) = some dst →
      freeVolumeCount toDiskType dst > 0 ∧
      isOneOf dst.id locations = false ∧
      pickSource locations dst.id ∈ locations ∧
      pickSource locations dst.id ≠ dst.id ∧
      ∃ pre post, keepDataNodesSorted allLocations toDiskType = pre ++ dst :: post ∧
        ∀ x ∈ pre, freeVolumeCount toDiskType x ≤ 0 ∨ isOneOf x.id locations = true) ∧
    (∀ applyChanges, (keepDataNodesSorted allLocations toDiskType).find?
        (viableTarget toDiskType locations) = none →
      doVolumeTierMove env vid toDiskType allLocations applyChanges =
        { err := none, topo := keepDataNodesSorted allLocations toDiskType
          events := [Event.wgWait, Event.msgNoTarget vid] } ∧
      (keepDataNodesSorted allLocations toDiskType).Perm allLocations) := by
  refine ⟨?_, ?_, ?_⟩
  · haveI h1 : IsTotal DataNodeInfo
        (fun x y => freeVolumeCount toDiskType y ≤ freeVolumeCount toDiskType x) :=
      ⟨fun a b => le_total _ _⟩
    haveI h2 : IsTrans DataNodeInfo
        (fun x y => freeVolumeCount toDiskType y ≤ freeVolumeCount toDiskType x) :=
      ⟨fun _ _ _ hab hbc => le_trans hbc hab⟩
    exact List.sorted_insertionSort _ _
  · intro dst hfind
    have hv : viableTarget toDiskType locations dst = true := List.find?_some hfind
    have hv2 : freeVolumeCount toDiskType dst > 0 ∧ isOneOf dst.id locations = false ∧
        pickSource locations dst.id ≠ "" := by
      simpa [viableTarget, and_assoc] using hv
    have hpick : pickSource locations dst.id ∈ locations ∧
        pickSource locations dst.id ≠ dst.id := by
      rcases pickSource_spec dst.id locations with h0 | h
      · exact absurd h0 hv2.2.2
      · exact h
    obtain ⟨pre, post, hsplit, hpre, _⟩ := find?_split hfind
    refine ⟨hv2.1, hv2.2.1, hpick.1, hpick.2, pre, post, hsplit, ?_⟩
    intro x hx
    have hnv := hpre x hx
    by_cases hcap : freeVolumeCount toDiskType x ≤ 0
    · exact Or.inl hcap
    · by_cases hhost : isOneOf x.id locations = true
      · exact Or.inr hhost
      · exfalso
        have hhost2 : isOneOf x.id locations = false := by
          cases hh : isOneOf x.id locations
          · rfl
          · exact absurd hh hhost
        have hps : pickSource locations x.id ≠ "" :=
          pickSource_ne_empty x.id locations hhost2 hne hnem
        have : viableTarget toDiskType locations x = true := by
          simp [viableTarget, hhost2, hps, lt_of_not_le hcap]
        rw [this] at hnv
        cases hnv
  · intro applyChanges hfind
    constructor
    · unfold doVolumeTierMove
      rw [hloc]
      simp only [hfind]
    · exact List.perm_insertionSort _ _

/-- Witness for claim C7: node C has the most free ssd slots but hosts a
replica and is skipped in favour of node B; with replicas on every node,
the run reports no target and returns without error. -/
theorem C7_destination_walk_witness :
    (freeVolumeCount "ssd" nodeB > 0 ∧ isOneOf nodeB.id ["C", "A"] = false ∧
      pickSource ["C", "A"] nodeB.id ∈ ["C", "A"] ∧
      pickSource ["C", "A"] nodeB.id ≠ nodeB.id ∧
      ∃ pre post, keepDataNodesSorted [nodeA, nodeB, nodeC] "ssd" = pre ++ nodeB :: post ∧
        ∀ x ∈ pre, freeVolumeCount "ssd" x ≤ 0 ∨ isOneOf x.id ["C", "A"] = true) ∧
    doVolumeTierMove allRepEnv 7 "ssd" [nodeA, nodeB, nodeC] true =
      { err := none, topo := keepDataNodesSorted [nodeA, nodeB, nodeC] "ssd"
        events := [Event.wgWait, Event.msgNoTarget 7] } :=
  ⟨(C7_destination_walk replicaAtCEnv 7 "ssd" [nodeA, nodeB, nodeC] ["C", "A"]
      rfl (by decide) (by decide)).2.1 nodeB (by decide),
   ((C7_destination_walk allRepEnv 7 "ssd" [nodeA, nodeB, nodeC] ["A", "B", "C"]
      rfl (by decide) (by decide)).2.2 true (by decide)).1⟩

theorem bumpNode_id (nid dt : String) (dn : DataNodeInfo) :
    (bumpNode nid dt dn).id = dn.id := by
  unfold bumpNode
  split <;> rfl

theorem bumpDisk_diskType (dt : String) (d : DiskInfo) :
    (bumpDisk dt d).diskType = d.diskType := by
  unfold bumpDisk
  split <;> rfl

theorem findNode_incVolumeCount (nid0 dt0 nid : String) :
    ∀ (l : List DataNodeInfo),
      findNode (incVolumeCount l nid0 dt0) nid = (findNode l nid).map (bumpNode nid0 dt0) := by
  intro l
  induction l with
  | nil => rfl
  | cons dn rest ih =>
    show List.find? (fun x => x.id == nid) (bumpNode nid0 dt0 dn :: List.map _ rest) = _
    cases hb : (dn.id == nid) with
    | true =>
      have hb2 : ((bumpNode nid0 dt0 dn).id == nid) = true := by rw [bumpNode_id]; exact hb
      rw [@List.find?_cons_of_pos DataNodeInfo (fun x => x.id == nid) _ _ hb2]
      show _ = (List.find? (fun x => x.id == nid) (dn :: rest)).map (bumpNode nid0 dt0)
      rw [@List.find?_cons_of_pos DataNodeInfo (fun x => x.id == nid) _ _ hb]
      rfl
    | false =>
      have hb2 : ¬((bumpNode nid0 dt0 dn).id == nid) = true := by
        rw [bumpNode_id, hb]; simp
      rw [@List.find?_cons_of_neg DataNodeInfo (fun x => x.id == nid) _ _ hb2]
      show _ = (List.find? (fun x => x.id == nid) (dn :: rest)).map (bumpNode nid0 dt0)
      rw [@List.find?_cons_of_neg DataNodeInfo (fun x => x.id == nid) _ _ (by simp [hb])]
      exact ih

theorem findDiskEntry_map_bump (dt0 dt : String) :
    ∀ (ds : List DiskInfo),
      (ds.map (bumpDisk dt0)).find? (fun d => d.diskType == dt) =
        (ds.find? (fun d => d.diskType == dt)).map (bumpDisk dt0) := by
  intro ds
  induction ds with
  | nil => rfl
  | cons d rest ih =>
    show List.find? (fun x => x.diskType == dt) (bumpDisk dt0 d :: List.map _ rest) = _
    cases hb : (d.diskType == dt) with
    | true =>
      have hb2 : ((bumpDisk dt0 d).diskType == dt) = true := by
        rw [bumpDisk_diskType]; exact hb
      rw [@List.find?_cons_of_pos DiskInfo (fun x => x.diskType == dt) _ _ hb2]
      show _ = (List.find? (fun x => x.diskType == dt) (d :: rest)).map (bumpDisk dt0)
      rw [@List.find?_cons_of_pos DiskInfo (fun x => x.diskType == dt) _ _ hb]
      rfl
    | false =>
      have hb2 : ¬((bumpDisk dt0 d).diskType == dt) = true := by
        rw [bumpDisk_diskType, hb]; simp
      rw [@List.find?_cons_of_neg DiskInfo (fun x => x.diskType == dt) _ _ hb2]
      show _ = (List.find? (fun x => x.diskType == dt) (d :: rest)).map (bumpDisk dt0)
      rw [@List.find?_cons_of_neg DiskInfo (fun x => x.diskType == dt) _ _ (by simp [hb])]
      exact ih

theorem findDisk_inc_same (l : List DataNodeInfo) (nid dt : String) :
    findDisk (incVolumeCount l nid dt) nid dt =
      (findDisk l nid dt).map (fun d => { d with volumeCount := d.volumeCount + 1 }) := by
  unfold findDisk
  rw [findNode_incVolumeCount]
  cases hf : findNode l nid with
  | none => rfl
  | some dn =>
    have hf2 : List.find? (fun x => x.id == nid) l = some dn := hf
    have hid : (dn.id == nid) = true :=
      @List.find?_some DataNodeInfo (fun x => x.id == nid) dn l hf2
    show ((bumpNode nid dt dn).diskInfos.find? (fun d => d.diskType == dt)) = _
    unfold bumpNode
    rw [if_pos hid]
    show ((dn.diskInfos.map (bumpDisk dt)).find? (fun d => d.diskType == dt)) = _
    rw [findDiskEntry_map_bump]
    show (dn.diskInfos.find? (fun d => d.diskType == dt)).map (bumpDisk dt) =
      (dn.diskInfos.find? (fun d => d.diskType == dt)).map
        (fun d => { d with volumeCount := d.volumeCount + 1 })
    cases hd : dn.diskInfos.find? (fun d => d.diskType == dt) with
    | none => rfl
    | some d =>
      have hdt : (d.diskType == dt) = true :=
        @List.find?_some DiskInfo (fun d => d.diskType == dt) d dn.diskInfos hd
      show some (bumpDisk dt d) = _
      unfold bumpDisk
      rw [if_pos hdt]
      rfl

theorem findDisk_inc_other (l : List DataNodeInfo) (nid0 dt0 nid dt : String)
    (hne : ¬(nid = nid0 ∧ dt = dt0)) :
    findDisk (incVolumeCount l nid0 dt0) nid dt = findDisk l nid dt := by
  unfold findDisk
  rw [findNode_incVolumeCount]
  cases hf : findNode l nid with
  | none => rfl
  | some dn =>
    have hf2 : List.find? (fun x => x.id == nid) l = some dn := hf
    have hid : (dn.id == nid) = true :=
      @List.find?_some DataNodeInfo (fun x => x.id == nid) dn l hf2
    have hideq : dn.id = nid := by simpa using hid
    show ((bumpNode nid0 dt0 dn).diskInfos.find? (fun d => d.diskType == dt)) = _
    by_cases hn : nid = nid0
    · have hdt0 : dt ≠ dt0 := fun hc => hne ⟨hn, hc⟩
      unfold bumpNode
      rw [if_pos (by rw [hideq, hn]; simp)]
      show ((dn.diskInfos.map (bumpDisk dt0)).find? (fun d => d.diskType == dt)) = _
      rw [findDiskEntry_map_bump]
      show (dn.diskInfos.find? (fun d => d.diskType == dt)).map (bumpDisk dt0) =
        dn.diskInfos.find? (fun d => d.diskType == dt)
      cases hd : dn.diskInfos.find? (fun d => d.diskType == dt) with
      | none => rfl
      | some d =>
        have hdeq : d.diskType = dt := by
          simpa using @List.find?_some DiskInfo (fun d => d.diskType == dt) d dn.diskInfos hd
        show some (bumpDisk dt0 d) = some d
        unfold bumpDisk
        rw [if_neg (by rw [hdeq]; simp [hdt0])]
    · unfold bumpNode
      rw [if_neg (by rw [hideq]; simp [hn])]
      rfl

theorem findNode_perm {l l2 : List DataNodeInfo} (hperm : l.Perm l2)
    (hnd : (l.map DataNodeInfo.id).Nodup) (nid : String) :
    findNode l nid = findNode l2 nid := by
  cases hf : findNode l nid with
  | none =>
    have ha : List.find? (fun x => x.id == nid) l = none := hf
    cases hf2 : findNode l2 nid with
    | none => rfl
    | some dn =>
      exfalso
      have hb : List.find? (fun x => x.id == nid) l2 = some dn := hf2
      have hmem : dn ∈ l := hperm.mem_iff.mpr (List.mem_of_find?_eq_some hb)
      have hp : (dn.id == nid) = true :=
        @List.find?_some DataNodeInfo (fun x => x.id == nid) dn l2 hb
      exact absurd hp (List.find?_eq_none.mp ha dn hmem)
  | some dn =>
    have ha : List.find? (fun x => x.id == nid) l = some dn := hf
    have hmem : dn ∈ l := List.mem_of_find?_eq_some ha
    have hp : dn.id = nid := by
      simpa using @List.find?_some DataNodeInfo (fun x => x.id == nid) dn l ha
    cases hf2 : findNode l2 nid with
    | none =>
      exfalso
      have hb : List.find? (fun x => x.id == nid) l2 = none := hf2
      have hmem2 : dn ∈ l2 := hperm.mem_iff.mp hmem
      exact absurd (by simpa using hp : (dn.id == nid) = true)
        (List.find?_eq_none.mp hb dn hmem2)
    | some dn2 =>
      have hb : List.find? (fun x => x.id == nid) l2 = some dn2 := hf2
      have hmem2 : dn2 ∈ l := hperm.mem_iff.mpr (List.mem_of_find?_eq_some hb)
      have hp2 : dn2.id = nid := by
        simpa using @List.find?_some DataNodeInfo (fun x => x.id == nid) dn2 l2 hb
      have : dn = dn2 := List.inj_on_of_nodup_map hnd hmem hmem2 (by rw [hp, hp2])
      rw [this]

theorem findDisk_perm {l l2 : List DataNodeInfo} (hperm : l.Perm l2)
    (hnd : (l.map DataNodeInfo.id).Nodup) (nid dt : String) :
    findDisk l nid dt = findDisk l2 nid dt := by
  unfold findDisk
  rw [findNode_perm hperm hnd]

/-- Claim C5: in dry-run mode a candidate volume with a viable destination
triggers no mutating RPC; the only state change is that the destination
node's VolumeCount for the target disk type grows by exactly one, every
other (node, disk type) entry of the snapshot reads unchanged, and the node
id set is preserved. -/
theorem C5_dry_run_frame (env : Env) (vid : Nat) (toDiskType : String)
    (allLocations : List DataNodeInfo) (locations : List String) (dst : DataNodeInfo)
    (hnd : (allLocations.map DataNodeInfo.id).Nodup)
    (hloc : env.getLocations vid = some locations)
    (hfind : (keepDataNodesSorted allLocations toDiskType).find?
      (viableTarget toDiskType locations) = some dst) :
    (doVolumeTierMove env vid toDiskType allLocations false).err = none ∧
    (doVolumeTierMove env vid toDiskType allLocations false).events =
      [Event.msgMoving vid (pickSource locations dst.id) dst.id, Event.wgWait] ∧
    (∀ e ∈ (doVolumeTierMove env vid toDiskType allLocations false).events,
      e.isMutatingRpc = false) ∧
    findDisk (doVolumeTierMove env vid toDiskType allLocations false).topo
        dst.id toDiskType =
      (findDisk allLocations dst.id toDiskType).map
        (fun d => { d with volumeCount := d.volumeCount + 1 }) ∧
    (∀ nid dt, ¬(nid = dst.id ∧ dt = toDiskType) →
      findDisk (doVolumeTierMove env vid toDiskType allLocations false).topo nid dt =
        findDisk allLocations nid dt) ∧
    ((doVolumeTierMove env vid toDiskType allLocations false).topo.map
      DataNodeInfo.id).Perm (allLocations.map DataNodeInfo.id) := by
  have hperm : (keepDataNodesSorted allLocations toDiskType).Perm allLocations :=
    List.perm_insertionSort _ _
  have hnds : ((keepDataNodesSorted allLocations toDiskType).map DataNodeInfo.id).Nodup :=
    ((hperm.map DataNodeInfo.id).nodup_iff).mpr hnd
  have hout : doVolumeTierMove env vid toDiskType allLocations false =
      { err := none
        topo := incVolumeCount (keepDataNodesSorted allLocations toDiskType)
          dst.id toDiskType
        events := [Event.msgMoving vid (pickSource locations dst.id) dst.id,
          Event.wgWait] } := by
    unfold doVolumeTierMove
    rw [hloc]
    simp only [hfind]
    rfl
  have hsorted_eq : ∀ nid dt, findDisk (keepDataNodesSorted allLocations toDiskType) nid dt =
      findDisk allLocations nid dt :=
    fun nid dt => findDisk_perm hperm hnds nid dt
  refine ⟨by rw [hout], by rw [hout], ?_, ?_, ?_, ?_⟩
  · intro e he
    rw [hout] at he
    rcases List.mem_cons.mp he with rfl | he
    · rfl
    rcases List.mem_cons.mp he with rfl | he
    · rfl
    cases he
  · rw [hout]
    show findDisk (incVolumeCount (keepDataNodesSorted allLocations toDiskType)
      dst.id toDiskType) dst.id toDiskType = _
    rw [findDisk_inc_same, hsorted_eq]
  · intro nid dt hne
    rw [hout]
    show findDisk (incVolumeCount (keepDataNodesSorted allLocations toDiskType)
      dst.id toDiskType) nid dt = _
    rw [findDisk_inc_other _ _ _ _ _ hne, hsorted_eq]
  · rw [hout]
    show ((incVolumeCount (keepDataNodesSorted allLocations toDiskType)
      dst.id toDiskType).map DataNodeInfo.id).Perm _
    have hmap : (incVolumeCount (keepDataNodesSorted allLocations toDiskType)
        dst.id toDiskType).map DataNodeInfo.id =
        (keepDataNodesSorted allLocations toDiskType).map DataNodeInfo.id := by
      unfold incVolumeCount
      rw [List.map_map]
      exact List.map_congr_left (fun dn _ => bumpNode_id dst.id toDiskType dn)
    rw [hmap]
    exact hperm.map DataNodeInfo.id

/-- Witness for claim C5 on a concrete cluster: the dry run over nodes A
and B only bumps the ssd counter of the chosen destination B and leaves
every other entry as in the snapshot. -/
theorem C5_dry_run_frame_witness :
    (doVolumeTierMove allOkEnv 7 "ssd" [nodeA, nodeB] false).err = none ∧
    (doVolumeTierMove allOkEnv 7 "ssd" [nodeA, nodeB] false).events =
      [Event.msgMoving 7 "A" "B", Event.wgWait] ∧
    findDisk (doVolumeTierMove allOkEnv 7 "ssd" [nodeA, nodeB] false).topo nodeB.id "ssd" =
      some { diskType := "ssd", volumeCount := 1, maxVolumeCount := 5, volumeInfos := [] } ∧
    findDisk (doVolumeTierMove allOkEnv 7 "ssd" [nodeA, nodeB] false).topo "A" "hdd" =
      findDisk [nodeA, nodeB] "A" "hdd" := by
  have h := C5_dry_run_frame allOkEnv 7 "ssd" [nodeA, nodeB] ["A"] nodeB
    (by decide) rfl (by decide)
  refine ⟨h.1, h.2.1, ?_, h.2.2.2.2.1 "A" "hdd" (by decide)⟩
  rw [h.2.2.2.1]
  rfl

end TierMove
